import Mathlib

/-! ## object_grabber and global_rsd

A shallow embedding of `kinect_cleanup/src/object_grabber.cpp` and of
`GlobalRSD::setSurfaceType` from `pcl_cloud_algos/include/pcl_cloud_algos/global_rsd.h`.

* `ExtractClusters.ptuFinderCallback` is the per-frame callback.  Its observable
  effects (log lines, publications, file writes, `exit`) are returned as a list of
  `Event`s in program order.  The PCL filters it drives are library code; they are
  taken as the function fields of `Pcl`.  A read outside a vector ends the trace with
  `Event.undefined_behaviour`.
* `main` is the entry point, as the list of its effects.
* `compute2DPolygonalArea` is the polygon-area utility, over an arbitrary linear
  ordered field (exact arithmetic).
* `GlobalRSD.setSurfaceType` is the surface categorization from the table of minimum and
  maximum normal angles per distance bin, over exact arithmetic; the angle and the distance
  of a pair of points, which the code computes with `acos` and `sqrt`, are given values.
-/

namespace ObjectGrabber

/-! ## Data model -/

/-- A `pcl::PointXYZRGB`: position and packed colour. -/
structure Point (K : Type) where
  x : K
  y : K
  z : K
  rgb : K
deriving DecidableEq, Repr

/-- The `points` vector of a `pcl::PointCloud<Point>`. -/
abbrev PointCloud (K : Type) := List (Point K)

/-- The `indices` vector of a `pcl::PointIndices`. -/
abbrev PointIndices := List Nat

/-- A `pcl::Normal`. -/
structure Normal (K : Type) where
  normal_x : K
  normal_y : K
  normal_z : K
deriving DecidableEq, Repr

/-- A `pcl::ModelCoefficients`: the vector `values`.  It is empty when default-constructed
(line 178) and left empty by a segmentation that finds no model; a plane fit fills in the
four plane coefficients. -/
structure ModelCoefficients (K : Type) where
  values : List K
deriving DecidableEq, Repr

/-- The three publishers advertised by the constructor. -/
inductive Publisher where
  | cloud_pub_
  | cloud_extracted_pub_
  | cloud_objects_pub_
deriving DecidableEq, Repr

/-- The log lines of the callback, with the values they are formatted from. -/
inductive LogMsg (K : Type) where
  /-- `"[ExtractClusters] Received cloud: cloud time ..."` -/
  | received_cloud
  /-- `"[%s] Table model: [%f, %f, %f, %f] with %d inliers."` -/
  | table_model (v0 v1 v2 v3 : K) (inliers : Int)
  /-- `"table has to few inliers"` -/
  | table_too_few_inliers
  /-- `"Saving cluster to: %s_%s.pcd"` -/
  | saving_cluster (object_name : String) (object_name_angle : String)
  /-- `"Published %ld clusters."` -/
  | published_clusters (n : Nat)
  /-- `"Only %ld clusters found with size > %d points"` -/
  | only_clusters_found (n : Nat) (object_cluster_min_size : Int)
deriving DecidableEq, Repr

/-- The observable effects of the callback. -/
inductive Event (K : Type) where
  | ros_info (msg : LogMsg K)
  | ros_error (msg : LogMsg K)
  /-- `pub.publish (cloud)` -/
  | publish (pub : Publisher) (cloud : PointCloud K)
  /-- `pcd_writer_.write (file_name, cloud, true)` -/
  | write (file_name : String) (cloud : PointCloud K)
  /-- `exit (status)`: the process ends, nothing follows it. -/
  | exit (status : Int)
  /-- An element of a `std::vector` is read with `operator[]` outside the vector: undefined
  behaviour.  What the process does from here on is not defined (in practice it is killed
  by the invalid read), and nothing after it is modelled. -/
  | undefined_behaviour
deriving DecidableEq, Repr

/-- The PCL objects held by the node (`vgrid_`, `n3d_`, `seg_`, `proj_`, `chull_`,
`prism_`, `cluster_`, and the local `extract_object_indices`), each as the function from
its inputs to its output, with the parameters set by the constructor fixed. -/
structure Pcl (K : Type) where
  /-- `vgrid_.filter (cloud)` on the raw cloud -/
  vgrid_filter : PointCloud K → PointCloud K
  /-- `n3d_.compute (cloud_normals)` -/
  n3d_compute : PointCloud K → List (Normal K)
  /-- `seg_.segment (table_inliers, table_coeff)` -/
  seg_segment : PointCloud K → List (Normal K) → PointIndices × ModelCoefficients K
  /-- `proj_.filter (cloud_projected)` -/
  proj_filter : PointCloud K → PointIndices → ModelCoefficients K → PointCloud K
  /-- `chull_.reconstruct (cloud_hull)` -/
  chull_reconstruct : PointCloud K → PointCloud K
  /-- `prism_.segment (cloud_object_indices)`, arguments: input cloud, planar hull -/
  prism_segment : PointCloud K → PointCloud K → PointIndices
  /-- `extract_object_indices.filter (cloud_object)` -/
  extract_filter : PointCloud K → PointIndices → PointCloud K
  /-- `cluster_.extract (clusters)` -/
  cluster_extract : PointCloud K → List PointIndices

/-- The members of `ExtractClusters` that the callback reads. -/
structure ExtractClusters (K : Type) where
  min_table_inliers_ : Int
  nr_cluster_ : Int
  object_cluster_min_size_ : Int
  save_to_files_ : Bool
  object_name_ : String
  pcl : Pcl K

/-! ## Library routines used by the callback -/

/-- Modelled from the spec: `pcl::copyPointCloud (cloud_in, indices, cloud_out)` is PCL
code.  An ObjectCloud is "a materialized PointCloud built by copying a Cluster's member
points": the output is resized to the number of indices and its `i`-th point is the input
point at `indices[i]`.  An index outside the cloud (which the cluster extraction never
produces) contributes no point. -/
def copyPointCloud {K : Type} (cloud_in : PointCloud K) (indices : PointIndices) :
    PointCloud K :=
  indices.filterMap (fun i => cloud_in[i]?)

/-- The C library conversion `sprintf (buf, "%04d", i)` for `i ≥ 0`: the decimal digits of
`i`, padded on the left with `'0'` up to a minimum width of four characters. -/
def sprintf_04d (i : Nat) : String :=
  let digits := Nat.toDigits 10 i
  String.mk (List.replicate (4 - digits.length) '0' ++ digits)

/-- The number written by a string of decimal digits. -/
def decimal_value (cs : List Char) : Nat :=
  cs.foldl (fun a c => 10 * a + (c.toNat - 48)) 0

/-! ## The callback -/

namespace ExtractClusters

variable {K : Type}

/-- The filtered cloud `cloud` (line 173). -/
def cloud (self : ExtractClusters K) (cloud_in : PointCloud K) : PointCloud K :=
  self.pcl.vgrid_filter cloud_in

/-- The result `(table_inliers, table_coeff)` of the plane fit (lines 184-200). -/
def table_fit (self : ExtractClusters K) (cloud_in : PointCloud K) :
    PointIndices × ModelCoefficients K :=
  let cloud := self.cloud cloud_in
  let cloud_normals := self.pcl.n3d_compute cloud
  self.pcl.seg_segment cloud cloud_normals

/-- The inlier index set `table_inliers`. -/
def table_inliers (self : ExtractClusters K) (cloud_in : PointCloud K) : PointIndices :=
  (self.table_fit cloud_in).1

/-- The convex hull `cloud_hull` of the projected inliers (lines 209-217). -/
def cloud_hull (self : ExtractClusters K) (cloud_in : PointCloud K) : PointCloud K :=
  let cloud := self.cloud cloud_in
  let (table_inliers, table_coeff) := self.table_fit cloud_in
  let cloud_projected := self.pcl.proj_filter cloud table_inliers table_coeff
  self.pcl.chull_reconstruct cloud_projected

/-- The candidate cloud `cloud_object` above the table (lines 258-271). -/
def cloud_object (self : ExtractClusters K) (cloud_in : PointCloud K) : PointCloud K :=
  let cloud := self.cloud cloud_in
  let cloud_object_indices := self.pcl.prism_segment cloud (self.cloud_hull cloud_in)
  self.pcl.extract_filter cloud cloud_object_indices

/-- The cluster sequence `clusters` (lines 276-282). -/
def clusters (self : ExtractClusters K) (cloud_in : PointCloud K) : List PointIndices :=
  self.pcl.cluster_extract (self.cloud_object cloud_in)

/-- The file name `object_name_ + "_" + object_name_angle + ".pcd"` of line 295. -/
def file_name (self : ExtractClusters K) (i : Nat) : String :=
  self.object_name_ ++ "_" ++ sprintf_04d i ++ ".pcd"

/-- One iteration of the loop of lines 287-298, for loop index `i`. -/
def emit_cluster (self : ExtractClusters K) (cloud_object : PointCloud K)
    (clusters : List PointIndices) (i : Nat) : List (Event K) :=
  let cloud_object_clustered := copyPointCloud cloud_object (clusters.getD i [])
  (if self.save_to_files_ then
    [Event.ros_info (LogMsg.saving_cluster self.object_name_ (sprintf_04d i)),
     Event.write (self.file_name i) cloud_object_clustered]
   else []) ++
  [Event.publish Publisher.cloud_objects_pub_ cloud_object_clustered]

/-- The selection and emission of lines 284-304. -/
def select_emit (self : ExtractClusters K) (cloud_object : PointCloud K)
    (clusters : List PointIndices) : List (Event K) :=
  if (clusters.length : Int) ≥ self.nr_cluster_ then
    (List.range self.nr_cluster_.toNat).flatMap (self.emit_cluster cloud_object clusters)
      ++ [Event.ros_info (LogMsg.published_clusters clusters.length)]
  else
    [Event.ros_error
      (LogMsg.only_clusters_found clusters.length self.object_cluster_min_size_)]

/-- The log line of lines 201-202, which reads `table_coeff.values[0]` to
`table_coeff.values[3]`: `none` when the vector has fewer than four entries and the read
is outside it. -/
def table_model_line (table_coeff : ModelCoefficients K) (inliers : Int) :
    Option (LogMsg K) :=
  match table_coeff.values with
  | v0 :: v1 :: v2 :: v3 :: _ => some (LogMsg.table_model v0 v1 v2 v3 inliers)
  | _ => none

/-- The callback `ptuFinderCallback (cloud_in)`: its effects, in program order.  The log
line of lines 201-202 comes before the inlier guard of line 203.  The `int` casts of the
vector sizes are the identity: a frame arrives as one message and has far fewer than `2^31`
points. -/
def ptuFinderCallback (self : ExtractClusters K) (cloud_in : PointCloud K) :
    List (Event K) :=
  let table_inliers := self.table_inliers cloud_in
  let table_coeff := (self.table_fit cloud_in).2
  [Event.ros_info LogMsg.received_cloud] ++
  match table_model_line table_coeff table_inliers.length with
  | none => [Event.undefined_behaviour]
  | some msg =>
    [Event.ros_info msg] ++
    if (table_inliers.length : Int) ≤ self.min_table_inliers_ then
      [Event.ros_error LogMsg.table_too_few_inliers]
    else
      [Event.publish Publisher.cloud_pub_ (self.cloud_hull cloud_in)] ++
      self.select_emit (self.cloud_object cloud_in) (self.clusters cloud_in) ++
      (if self.save_to_files_ then [Event.exit 2] else [])

end ExtractClusters

/-! ## Polygon area -/

section Area

variable {K : Type} [LinearOrderedField K]

/-- The entry `p[k]` of the local arrays `p_i`, `p_j` (lines 341, 343): `x`, `y`, `z` for
`k = 0, 1, 2`. -/
def Point.coord (p : Point K) (k : Nat) : K :=
  match k with
  | 0 => p.x
  | 1 => p.y
  | _ => p.z

/-- The axis `k0` of lines 328-329: the index of the largest normal component in absolute
value.  `normal.at (k)` throws when the vector has no entry `k`; that is `none`. -/
def dominant_axis (normal : List K) : Option Nat := do
  let n0 ← normal[0]?
  let n1 ← normal[1]?
  let k0 : Nat := if |n0| > |n1| then 0 else 1
  let nk0 ← normal[k0]?
  let n2 ← normal[2]?
  pure (if |nk0| > |n2| then k0 else 2)

/-- The summand `p_i[k1] * p_j[k2] - p_i[k2] * p_j[k1]` of line 345. -/
def cross_term (k1 k2 : Nat) (p_i p_j : Point K) : K :=
  p_i.coord k1 * p_j.coord k2 - p_i.coord k2 * p_j.coord k1

/-- The loop of lines 339-346: the sum over `i` of
`p_i[k1] * p_j[k2] - p_i[k2] * p_j[k1]` with `j = (i + 1) % size`. -/
def shoelace_sum (points : PointCloud K) (k1 k2 : Nat) : K :=
  (List.range points.length).foldl
    (fun area i =>
      match points[i]?, points[(i + 1) % points.length]? with
      | some p_i, some p_j => area + cross_term k1 k2 p_i p_j
      | _, _ => area)
    0

/-- The function `compute2DPolygonalArea (points, normal)` over exact arithmetic.  The
result is `none` when `normal.at` throws (fewer than three entries) and when the divisor
`2 * ct` is zero, where the quotient is not a number of the field. -/
def compute2DPolygonalArea (points : PointCloud K) (normal : List K) : Option K := do
  let k0 ← dominant_axis normal
  let k1 := (k0 + 1) % 3
  let k2 := (k0 + 2) % 3
  let ct := |(← normal[k0]?)|
  let area := shoelace_sum points k1 k2
  if 2 * ct = 0 then none else pure (|area| / (2 * ct))

end Area

/-! ## Observations on a trace -/

variable {K : Type}

/-- The cloud and publisher of a publication, nothing for any other event. -/
def Event.published? : Event K → Option (Publisher × PointCloud K)
  | Event.publish pub c => some (pub, c)
  | _ => none

/-- The object cloud of a publication on `cloud_objects_pub_`. -/
def Event.published_object? : Event K → Option (PointCloud K)
  | Event.publish Publisher.cloud_objects_pub_ c => some c
  | _ => none

/-- The file name and cloud of a file write. -/
def Event.persisted? : Event K → Option (String × PointCloud K)
  | Event.write name c => some (name, c)
  | _ => none

/-- The status of an `exit`. -/
def Event.exit_status? : Event K → Option Int
  | Event.exit status => some status
  | _ => none

/-- Everything handed to the publish sink (hull and object clouds), with the publisher
used, in order. -/
def published (es : List (Event K)) : List (Publisher × PointCloud K) :=
  es.filterMap Event.published?

/-- The object clouds handed to the publish sink, in order. -/
def published_objects (es : List (Event K)) : List (PointCloud K) :=
  es.filterMap Event.published_object?

/-- The clouds handed to the persistence sink, with their file names, in order. -/
def persisted (es : List (Event K)) : List (String × PointCloud K) :=
  es.filterMap Event.persisted?

/-- The exit status, when the trace ends the process. -/
def exit_status (es : List (Event K)) : Option Int :=
  (es.filterMap Event.exit_status?).head?

/-- The frame was abandoned with the error "table has to few inliers". -/
def insufficient_table_inliers (es : List (Event K)) : Prop :=
  Event.ros_error LogMsg.table_too_few_inliers ∈ es

/-- The frame ended with the error "Only ... clusters found". -/
def insufficient_clusters (es : List (Event K)) : Prop :=
  ∃ n m, Event.ros_error (LogMsg.only_clusters_found n m) ∈ es

/-! ## Concrete frames -/

namespace Example

/-- A point at integer coordinates. -/
def pt (x y z : Int) : Point Int := ⟨x, y, z, 0⟩

/-- Stand-ins for the PCL stages: every point of the frame is a table inlier and an
object candidate, and every candidate point is a cluster of its own. -/
def pcl : Pcl Int where
  vgrid_filter := fun c => c
  n3d_compute := fun c => c.map (fun _ => ⟨0, 0, 1⟩)
  seg_segment := fun c _ => (List.range c.length, ⟨[0, 0, 1, 0]⟩)
  proj_filter := fun c idx _ => copyPointCloud c idx
  chull_reconstruct := fun c => c
  prism_segment := fun c _ => List.range c.length
  extract_filter := fun c idx => copyPointCloud c idx
  cluster_extract := fun c => (List.range c.length).map (fun i => [i])

/-- Stand-ins for the PCL stages on a frame without a plane: the segmentation finds no
model and leaves both the inliers and the coefficients empty. -/
def pcl_no_plane : Pcl Int where
  vgrid_filter := fun c => c
  n3d_compute := fun c => c.map (fun _ => ⟨0, 0, 1⟩)
  seg_segment := fun _ _ => ([], ⟨[]⟩)
  proj_filter := fun c idx _ => copyPointCloud c idx
  chull_reconstruct := fun c => c
  prism_segment := fun c _ => List.range c.length
  extract_filter := fun c idx => copyPointCloud c idx
  cluster_extract := fun c => (List.range c.length).map (fun i => [i])

/-- A node with the default thresholds (`min_table_inliers = 100`, `nr_cluster = 4`,
minimum cluster size `100`) on frames without a plane. -/
def node_no_plane (save_to_files : Bool) : ExtractClusters Int where
  min_table_inliers_ := 100
  nr_cluster_ := 4
  object_cluster_min_size_ := 100
  save_to_files_ := save_to_files
  object_name_ := "mug"
  pcl := pcl_no_plane

/-- A node with the given thresholds, the default minimum cluster size `100` and the
object name `"mug"`. -/
def node (min_table_inliers nr_cluster : Int) (save_to_files : Bool) :
    ExtractClusters Int where
  min_table_inliers_ := min_table_inliers
  nr_cluster_ := nr_cluster
  object_cluster_min_size_ := 100
  save_to_files_ := save_to_files
  object_name_ := "mug"
  pcl := pcl

/-- A frame of three points. -/
def frame3 : PointCloud Int := [pt 0 0 1, pt 1 0 1, pt 0 1 1]

/-- A frame of 10001 points in a row. -/
def frame10001 : PointCloud Int := (List.range 10001).map (fun (i : Nat) => pt (Int.ofNat i) 0 1)

/-- A frame of one hundred points in a row. -/
def frame100 : PointCloud Int := (List.range 100).map (fun (i : Nat) => pt (Int.ofNat i) 0 1)

end Example

/-! ## The entry point -/

/-- The effects of `main`, in program order. -/
inductive MainEvent where
  /-- `ros::init (argc, argv, "extract_clusters")` -/
  | ros_init (name : String)
  /-- `ros::NodeHandle nh ("~")` -/
  | node_handle (ns : String)
  /-- `ROS_ERROR ("usage %s <object_name>", argv[0])` -/
  | ros_error_usage (argv0 : Option String)
  /-- `exit (status)`: the process ends, nothing follows it. -/
  | exit (status : Int)
  /-- `ExtractClusters ptu_calibrator (nh)`: the node is constructed. -/
  | construct
  /-- `point_cloud_sub_ = nh_.subscribe (point_cloud_topic, 1, ...)`: from here on frames
  can reach `ptuFinderCallback`. -/
  | subscribe (topic : String)
  /-- `object_name_ = object_name` -/
  | set_object_name (object_name : String)
  /-- `ros::spin ()`: frames are dispatched to the subscribed callback. -/
  | spin
deriving DecidableEq, Repr

/-- The method `init (tolerance, object_name)` of lines 154-160. -/
def ExtractClusters.init (_tolerance : Int) (object_name : String) : List MainEvent :=
  [MainEvent.subscribe "/camera/depth/points2", MainEvent.set_object_name object_name]

/-- The function `main (argc, argv)` of lines 398-412, with `argc = argv.length` and `argv`
the argument vector as `ros::init` leaves it. -/
def main (argv : List String) : List MainEvent :=
  [MainEvent.ros_init "extract_clusters", MainEvent.node_handle "~"] ++
  if (argv.length : Int) < 2 then
    [MainEvent.ros_error_usage argv[0]?, MainEvent.exit 2]
  else
    match argv[1]? with
    | some object_name =>
      [MainEvent.construct] ++ ExtractClusters.init 5 object_name ++ [MainEvent.spin]
    | none => []

/-! ## Plane geometry used to state the area properties -/

section Geometry

variable {K : Type} [LinearOrderedField K]

/-- The sum of `f ps[i] ps[(i + 1) mod len]` over all `i`: `ps.rotate 1` lists the
successor of every vertex. -/
def cyclic_sum (f : Point K → Point K → K) (ps : PointCloud K) : K :=
  (List.zipWith f ps (ps.rotate 1)).sum

/-- The three components of the sum over `i` of the cross products
`ps[i] × ps[(i + 1) mod len]`. -/
def polygon_cross_sum (ps : PointCloud K) : K × K × K :=
  (cyclic_sum (fun p q => p.y * q.z - p.z * q.y) ps,
   cyclic_sum (fun p q => p.z * q.x - p.x * q.z) ps,
   cyclic_sum (fun p q => p.x * q.y - p.y * q.x) ps)

/-- The point `p` lies in the plane `n0 x + n1 y + n2 z = d`. -/
def in_plane (n0 n1 n2 d : K) (p : Point K) : Prop :=
  n0 * p.x + n1 * p.y + n2 * p.z = d

/-- A matrix `M` and a point `a`, for the map `p ↦ a + M (p - a)`. -/
structure AxisRotation (K : Type) where
  m00 : K
  m01 : K
  m02 : K
  m10 : K
  m11 : K
  m12 : K
  m20 : K
  m21 : K
  m22 : K
  a0 : K
  a1 : K
  a2 : K

/-- The image `a + M (p - a)` of a point; the colour is kept. -/
def AxisRotation.apply (R : AxisRotation K) (p : Point K) : Point K where
  x := R.a0 + (R.m00 * (p.x - R.a0) + R.m01 * (p.y - R.a1) + R.m02 * (p.z - R.a2))
  y := R.a1 + (R.m10 * (p.x - R.a0) + R.m11 * (p.y - R.a1) + R.m12 * (p.z - R.a2))
  z := R.a2 + (R.m20 * (p.x - R.a0) + R.m21 * (p.y - R.a1) + R.m22 * (p.z - R.a2))
  rgb := p.rgb

/-- The matrix is orthogonal: its columns are orthonormal. -/
def AxisRotation.orthogonal (R : AxisRotation K) : Prop :=
  R.m00 * R.m00 + R.m10 * R.m10 + R.m20 * R.m20 = 1
    ∧ R.m01 * R.m01 + R.m11 * R.m11 + R.m21 * R.m21 = 1
    ∧ R.m02 * R.m02 + R.m12 * R.m12 + R.m22 * R.m22 = 1
    ∧ R.m00 * R.m01 + R.m10 * R.m11 + R.m20 * R.m21 = 0
    ∧ R.m00 * R.m02 + R.m10 * R.m12 + R.m20 * R.m22 = 0
    ∧ R.m01 * R.m02 + R.m11 * R.m12 + R.m21 * R.m22 = 0

/-- The determinant of the matrix. -/
def AxisRotation.det (R : AxisRotation K) : K :=
  R.m00 * (R.m11 * R.m22 - R.m12 * R.m21)
    - R.m01 * (R.m10 * R.m22 - R.m12 * R.m20)
    + R.m02 * (R.m10 * R.m21 - R.m11 * R.m20)

/-- The matrix leaves the direction `(n0, n1, n2)` fixed. -/
def AxisRotation.fixes (R : AxisRotation K) (n0 n1 n2 : K) : Prop :=
  R.m00 * n0 + R.m01 * n1 + R.m02 * n2 = n0
    ∧ R.m10 * n0 + R.m11 * n1 + R.m12 * n2 = n1
    ∧ R.m20 * n0 + R.m21 * n1 + R.m22 * n2 = n2

/-- The map is a rotation about the axis through `a` with direction `(n0, n1, n2)`: an
orthogonal matrix of determinant one that fixes the direction.  Over the reals these are
exactly the rotations by an angle about that axis. -/
def AxisRotation.is_rotation_about (R : AxisRotation K) (n0 n1 n2 : K) : Prop :=
  R.orthogonal ∧ R.det = 1 ∧ R.fixes n0 n1 n2

/-- The shift term of component 0 of the cross product under the map of `R`. -/
def AxisRotation.shift_term_0 (R : AxisRotation K) (v : Point K) : K :=
  (R.a1 - (R.m10 * R.a0 + R.m11 * R.a1 + R.m12 * R.a2)) * (R.m20 * v.x + R.m21 * v.y + R.m22 * v.z)
    - (R.a2 - (R.m20 * R.a0 + R.m21 * R.a1 + R.m22 * R.a2)) * (R.m10 * v.x + R.m11 * v.y + R.m12 * v.z)

/-- The shift term of component 1 of the cross product under the map of `R`. -/
def AxisRotation.shift_term_1 (R : AxisRotation K) (v : Point K) : K :=
  (R.a2 - (R.m20 * R.a0 + R.m21 * R.a1 + R.m22 * R.a2)) * (R.m00 * v.x + R.m01 * v.y + R.m02 * v.z)
    - (R.a0 - (R.m00 * R.a0 + R.m01 * R.a1 + R.m02 * R.a2)) * (R.m20 * v.x + R.m21 * v.y + R.m22 * v.z)

/-- The shift term of component 2 of the cross product under the map of `R`. -/
def AxisRotation.shift_term_2 (R : AxisRotation K) (v : Point K) : K :=
  (R.a0 - (R.m00 * R.a0 + R.m01 * R.a1 + R.m02 * R.a2)) * (R.m10 * v.x + R.m11 * v.y + R.m12 * v.z)
    - (R.a1 - (R.m10 * R.a0 + R.m11 * R.a1 + R.m12 * R.a2)) * (R.m00 * v.x + R.m01 * v.y + R.m02 * v.z)

/-- The rotation by the angle with cosine `c` and sine `s` about the axis through `a` with
unit direction `u`, by the axis-angle formula
`M v = c v + s (u × v) + (1 - c) (u · v) u`. -/
def AxisRotation.about_axis (c s u0 u1 u2 a0 a1 a2 : K) : AxisRotation K where
  m00 := c + (1 - c) * (u0 * u0)
  m01 := -(s * u2) + (1 - c) * (u0 * u1)
  m02 := s * u1 + (1 - c) * (u0 * u2)
  m10 := s * u2 + (1 - c) * (u1 * u0)
  m11 := c + (1 - c) * (u1 * u1)
  m12 := -(s * u0) + (1 - c) * (u1 * u2)
  m20 := -(s * u1) + (1 - c) * (u2 * u0)
  m21 := s * u0 + (1 - c) * (u2 * u1)
  m22 := c + (1 - c) * (u2 * u2)
  a0 := a0
  a1 := a1
  a2 := a2

/-- The rotation by the angle with cosine `c` and sine `s` about the axis through `a`
parallel to the `z` axis. -/
def AxisRotation.about_z (c s a0 a1 a2 : K) : AxisRotation K where
  m00 := c
  m01 := -s
  m02 := 0
  m10 := s
  m11 := c
  m12 := 0
  m20 := 0
  m21 := 0
  m22 := 1
  a0 := a0
  a1 := a1
  a2 := a2

end Geometry

namespace Example

/-- A triangle in the plane `x + 2 y + 2 z = 0`. -/
def triangle : PointCloud ℚ :=
  [⟨0, 1, -1, 0⟩, ⟨2, -1, 0, 0⟩, ⟨2, 0, -1, 0⟩]

/-- The rotation by the angle with cosine `3/5` and sine `4/5` about the axis through
`(1, 2, 3)` with direction `(1/3, 2/3, 2/3)`. -/
def turn : AxisRotation ℚ :=
  AxisRotation.about_axis (3 / 5) (4 / 5) (1 / 3) (2 / 3) (2 / 3) 1 2 3

/-- The unit square in the plane `z = 0`. -/
def unit_square (K : Type) [LinearOrderedField K] : PointCloud K :=
  [⟨0, 0, 0, 0⟩, ⟨1, 0, 0, 0⟩, ⟨1, 1, 0, 0⟩, ⟨0, 1, 0, 0⟩]

end Example

end ObjectGrabber

/-! ## global_rsd.h: surface type from the radius estimates -/

namespace GlobalRSD

section Estimate

variable {K : Type} [LinearOrderedField K]

/-- The macro `NR_CLASS`. -/
def NR_CLASS : Int := 5

/-- The local `div_d` of line 134. -/
def div_d : Nat := 5

/-- The local `plane_radius` of line 135. -/
def plane_radius : K := 0.2

/-- The table `min_max_angle_by_dist` after lines 138-144: `div_d` entries
`[+DBL_MAX, -DBL_MAX]`. -/
def init_min_max_angle_by_dist (dbl_max : K) : List (K × K) :=
  List.replicate div_d (dbl_max, -dbl_max)

/-- The update of lines 170-171 at index `bin_d`.  The table is a `std::vector` indexed
with `operator[]`: an index outside it is undefined behaviour, here `none`. -/
def update_min_max (table : List (K × K)) (bin_d : Int) (angle : K) :
    Option (List (K × K)) :=
  if bin_d < 0 then none
  else
    match table[bin_d.toNat]? with
    | none => none
    | some e =>
      some (table.set bin_d.toNat
        (if e.1 > angle then angle else e.1, if e.2 < angle then angle else e.2))

/-- The body of the loop of lines 177-193 for bin `di`, on the sums
`(Amint_Amin, Amint_d, Amaxt_Amax, Amaxt_d)`. -/
def accumulate (table : List (K × K)) (max_dist : K) (acc : K × K × K × K) (di : Nat) :
    K × K × K × K :=
  match table[di]? with
  | none => acc
  | some e =>
    if e.2 ≥ 0 then
      let p_min := e.1
      let p_max := e.2
      let f := ((di : K) + 0.5) * max_dist / (div_d : K)
      (acc.1 + p_min * p_min, acc.2.1 + p_min * f,
       acc.2.2.1 + p_max * p_max, acc.2.2.2 + p_max * f)
    else acc

/-- The sums `(Amint_Amin, Amint_d, Amaxt_Amax, Amaxt_d)` after lines 175-193. -/
def normal_equations (table : List (K × K)) (max_dist : K) : K × K × K × K :=
  (List.range div_d).foldl (accumulate table max_dist) (0, 0, 0, 0)

/-- The value `max_radius` of lines 195-197. -/
def max_radius (table : List (K × K)) (max_dist : K) : K :=
  let Amint_Amin := (normal_equations table max_dist).1
  let Amint_d := (normal_equations table max_dist).2.1
  if Amint_Amin = 0 then plane_radius else min (Amint_d / Amint_Amin) plane_radius

/-- The value `min_radius` of lines 198-200. -/
def min_radius (table : List (K × K)) (max_dist : K) : K :=
  let Amaxt_Amax := (normal_equations table max_dist).2.2.1
  let Amaxt_d := (normal_equations table max_dist).2.2.2
  if Amaxt_Amax = 0 then plane_radius else min (Amaxt_d / Amaxt_Amax) plane_radius

/-- The categorization of lines 204-220. -/
def surface_type (min_radius max_radius : K) : Int :=
  let type : Int :=
    if min_radius > 0.045 then 1
    else if min_radius < 0.030 ∧ max_radius < 0.050 then 0
    else if max_radius - min_radius < 0.01 then 3
    else if min_radius < 0.030 then 4
    else 2
  if type ≥ NR_CLASS then -1 else type

/-- The values stored for every point of `indices` by lines 223-229. -/
structure Stored (K : Type) where
  type : Int
  min_radius : K
  max_radius : K
  diff : K
deriving DecidableEq, Repr

end Estimate

section Binning

variable {K : Type} [LinearOrderedField K] [FloorRing K]

/-- The bin index of line 167, `(int) floor (div_d * dist / max_dist)`. -/
def bin_d (dist max_dist : K) : Int :=
  ⌊(div_d : K) * dist / max_dist⌋

/-- The loops of lines 147-172.  `angle i j` and `dist i j` stand for the angle between the
normals (after the folding of lines 154-157) and the distance of the points with cloud
indices `i` and `j`, which the code computes with `acos` and `sqrt`. -/
def min_max_angle_by_dist (dbl_max : K) (angle dist : Nat → Nat → K)
    (neighbors : List Nat) (max_dist : K) : Option (List (K × K)) :=
  (List.range neighbors.length).foldlM
    (fun table i =>
      (List.range' i (neighbors.length - i)).foldlM
        (fun table j =>
          update_min_max table
            (bin_d (dist (neighbors.getD i 0) (neighbors.getD j 0)) max_dist)
            (angle (neighbors.getD i 0) (neighbors.getD j 0)))
        table)
    (init_min_max_angle_by_dist dbl_max)

/-- The function `setSurfaceType`, as the values it stores; `none` when the table is
indexed outside its bounds. -/
def setSurfaceType (dbl_max : K) (angle dist : Nat → Nat → K) (neighbors : List Nat)
    (max_dist : K) : Option (Stored K) := do
  let table ← min_max_angle_by_dist dbl_max angle dist neighbors max_dist
  let max_radius := max_radius table max_dist
  let min_radius := min_radius table max_dist
  pure { type := surface_type min_radius max_radius,
         min_radius := min_radius,
         max_radius := max_radius,
         diff := max_radius - min_radius }

end Binning

namespace Example

/-- The constant `DBL_MAX`, `(2 ^ 53 - 1) * 2 ^ 971`. -/
def DBL_MAX : ℚ := (2 ^ 53 - 1) * 2 ^ 971

/-- Two points at distance `1`: the distance of a point to itself is `0`. -/
def dist2 (i j : Nat) : ℚ := if i = j then 0 else 1

/-- Two points with normals at angle `1/2`. -/
def angle2 (i j : Nat) : ℚ := if i = j then 0 else 1 / 2

end Example

end GlobalRSD

namespace ObjectGrabber

variable {K : Type}

/-! ## Trace lemmas -/

lemma Example.fit_found (a b : Int) (s : Bool) (c : PointCloud Int) :
    4 ≤ ((Example.node a b s).table_fit c).2.values.length := by
  simp [ExtractClusters.table_fit, Example.node, Example.pcl]

section TraceLemmas

variable {α β γ : Type}

lemma filterMap_flatMap (g : β → Option γ) (f : α → List β) (l : List α) :
    (l.flatMap f).filterMap g = l.flatMap (fun a => (f a).filterMap g) := by
  induction l with
  | nil => rfl
  | cons a l ih => simp [List.flatMap_cons, List.filterMap_append, ih]

lemma flatMap_single (f : α → β) (l : List α) :
    l.flatMap (fun a => [f a]) = l.map f := by
  induction l with
  | nil => rfl
  | cons a l ih => simp [List.flatMap_cons, ih]

lemma flatMap_empty (l : List α) : l.flatMap (fun _ => ([] : List β)) = [] := by
  induction l with
  | nil => rfl
  | cons a l ih => simp [List.flatMap_cons, ih]

lemma map_range_getD (f : α → β) (d : α) (l : List α) (n : Nat) (h : n ≤ l.length) :
    (List.range n).map (fun i => f (l.getD i d)) = (l.take n).map f := by
  apply List.ext_getElem
  · simp [h]
  · intro i h₁ h₂
    have hi : i < l.length := by
      simp at h₁
      omega
    simp [List.getD_eq_getElem?_getD, List.getElem?_eq_getElem hi]

end TraceLemmas

namespace ExtractClusters

lemma published_object_emit_cluster (self : ExtractClusters K) (co : PointCloud K)
    (cl : List PointIndices) (i : Nat) :
    (self.emit_cluster co cl i).filterMap Event.published_object?
      = [copyPointCloud co (cl.getD i [])] := by
  cases h : self.save_to_files_ <;>
    simp [emit_cluster, h, Event.published_object?]

lemma published_emit_cluster (self : ExtractClusters K) (co : PointCloud K)
    (cl : List PointIndices) (i : Nat) :
    (self.emit_cluster co cl i).filterMap Event.published?
      = [(Publisher.cloud_objects_pub_, copyPointCloud co (cl.getD i []))] := by
  cases h : self.save_to_files_ <;>
    simp [emit_cluster, h, Event.published?]

lemma persisted_emit_cluster (self : ExtractClusters K) (co : PointCloud K)
    (cl : List PointIndices) (i : Nat) :
    (self.emit_cluster co cl i).filterMap Event.persisted?
      = if self.save_to_files_ then [(self.file_name i, copyPointCloud co (cl.getD i []))]
        else [] := by
  cases h : self.save_to_files_ <;>
    simp [emit_cluster, h, Event.persisted?]

lemma exit_emit_cluster (self : ExtractClusters K) (co : PointCloud K)
    (cl : List PointIndices) (i : Nat) :
    (self.emit_cluster co cl i).filterMap Event.exit_status? = [] := by
  cases h : self.save_to_files_ <;>
    simp [emit_cluster, h, Event.exit_status?]

lemma published_objects_select_emit (self : ExtractClusters K) (co : PointCloud K)
    (cl : List PointIndices) :
    published_objects (self.select_emit co cl)
      = if self.nr_cluster_ ≤ (cl.length : Int) then
          (List.range self.nr_cluster_.toNat).map (fun i => copyPointCloud co (cl.getD i []))
        else [] := by
  unfold select_emit published_objects
  split
  · simp [List.filterMap_append, filterMap_flatMap, published_object_emit_cluster,
      flatMap_single, Event.published_object?]
  · simp [Event.published_object?]

lemma published_select_emit (self : ExtractClusters K) (co : PointCloud K)
    (cl : List PointIndices) :
    published (self.select_emit co cl)
      = if self.nr_cluster_ ≤ (cl.length : Int) then
          (List.range self.nr_cluster_.toNat).map
            (fun i => (Publisher.cloud_objects_pub_, copyPointCloud co (cl.getD i [])))
        else [] := by
  unfold select_emit published
  split
  · simp [List.filterMap_append, filterMap_flatMap, published_emit_cluster,
      flatMap_single, Event.published?]
  · simp [Event.published?]

lemma persisted_select_emit (self : ExtractClusters K) (co : PointCloud K)
    (cl : List PointIndices) :
    persisted (self.select_emit co cl)
      = if self.nr_cluster_ ≤ (cl.length : Int) ∧ self.save_to_files_ = true then
          (List.range self.nr_cluster_.toNat).map
            (fun i => (self.file_name i, copyPointCloud co (cl.getD i [])))
        else [] := by
  unfold select_emit persisted
  cases h : self.save_to_files_ <;> split <;>
    simp_all [List.filterMap_append, filterMap_flatMap, persisted_emit_cluster,
      flatMap_single, flatMap_empty, Event.persisted?]

lemma exit_select_emit (self : ExtractClusters K) (co : PointCloud K)
    (cl : List PointIndices) :
    (self.select_emit co cl).filterMap Event.exit_status? = [] := by
  unfold select_emit
  split <;>
    simp [List.filterMap_append, filterMap_flatMap, exit_emit_cluster, flatMap_empty,
      Event.exit_status?]

end ExtractClusters

namespace ExtractClusters

lemma table_model_line_of_fit (c : ModelCoefficients K) (n : Int)
    (hfit : 4 ≤ c.values.length) : ∃ msg, table_model_line c n = some msg := by
  unfold table_model_line
  match h : c.values with
  | [] => simp [h] at hfit
  | [_] => simp [h] at hfit
  | [_, _] => simp [h] at hfit
  | [_, _, _] => simp [h] at hfit
  | v0 :: v1 :: v2 :: v3 :: _ => exact ⟨_, rfl⟩

lemma table_model_line_of_short (c : ModelCoefficients K) (n : Int)
    (hshort : c.values.length < 4) : table_model_line c n = none := by
  unfold table_model_line
  match h : c.values with
  | [] => rfl
  | [_] => rfl
  | [_, _] => rfl
  | [_, _, _] => rfl
  | v0 :: v1 :: v2 :: v3 :: l =>
    simp [h] at hshort
    omega

lemma fit_of_table_model_line (c : ModelCoefficients K) (n : Int) (msg : LogMsg K)
    (h : table_model_line c n = some msg) : 4 ≤ c.values.length := by
  by_contra hlt
  rw [table_model_line_of_short c n (not_le.mp hlt)] at h
  exact Option.noConfusion h

/-- The trace of a frame whose plane fit left fewer than four coefficients. -/
lemma ptuFinderCallback_undefined (self : ExtractClusters K) (cloud_in : PointCloud K)
    (hshort : (self.table_fit cloud_in).2.values.length < 4) :
    self.ptuFinderCallback cloud_in
      = [Event.ros_info LogMsg.received_cloud, Event.undefined_behaviour] := by
  simp [ptuFinderCallback, table_model_line_of_short _ _ hshort]

lemma ptuFinderCallback_abandon (self : ExtractClusters K) (cloud_in : PointCloud K)
    (msg : LogMsg K)
    (hmsg : table_model_line (self.table_fit cloud_in).2
      (self.table_inliers cloud_in).length = some msg)
    (h : ((self.table_inliers cloud_in).length : Int) ≤ self.min_table_inliers_) :
    self.ptuFinderCallback cloud_in
      = [Event.ros_info LogMsg.received_cloud, Event.ros_info msg,
         Event.ros_error LogMsg.table_too_few_inliers] := by
  simp [ptuFinderCallback, hmsg, h]

lemma ptuFinderCallback_proceed (self : ExtractClusters K) (cloud_in : PointCloud K)
    (msg : LogMsg K)
    (hmsg : table_model_line (self.table_fit cloud_in).2
      (self.table_inliers cloud_in).length = some msg)
    (h : self.min_table_inliers_ < ((self.table_inliers cloud_in).length : Int)) :
    self.ptuFinderCallback cloud_in
      = [Event.ros_info LogMsg.received_cloud, Event.ros_info msg,
         Event.publish Publisher.cloud_pub_ (self.cloud_hull cloud_in)] ++
        self.select_emit (self.cloud_object cloud_in) (self.clusters cloud_in) ++
        (if self.save_to_files_ then [Event.exit 2] else []) := by
  simp [ptuFinderCallback, hmsg, not_le.mpr h]

lemma published_objects_ptuFinderCallback (self : ExtractClusters K)
    (cloud_in : PointCloud K) (hfit : 4 ≤ (self.table_fit cloud_in).2.values.length) :
    published_objects (self.ptuFinderCallback cloud_in)
      = if ((self.table_inliers cloud_in).length : Int) ≤ self.min_table_inliers_ then []
        else published_objects
          (self.select_emit (self.cloud_object cloud_in) (self.clusters cloud_in)) := by
  obtain ⟨msg, hmsg⟩ := table_model_line_of_fit _ (self.table_inliers cloud_in).length hfit
  split
  · next h => simp [ptuFinderCallback_abandon self cloud_in msg hmsg h, published_objects,
      Event.published_object?]
  · next h =>
    rw [ptuFinderCallback_proceed self cloud_in msg hmsg (not_le.mp h)]
    cases self.save_to_files_ <;>
      simp [published_objects, List.filterMap_append, Event.published_object?]

lemma published_ptuFinderCallback (self : ExtractClusters K) (cloud_in : PointCloud K)
    (hfit : 4 ≤ (self.table_fit cloud_in).2.values.length) :
    published (self.ptuFinderCallback cloud_in)
      = if ((self.table_inliers cloud_in).length : Int) ≤ self.min_table_inliers_ then []
        else (Publisher.cloud_pub_, self.cloud_hull cloud_in) ::
          published (self.select_emit (self.cloud_object cloud_in) (self.clusters cloud_in))
    := by
  obtain ⟨msg, hmsg⟩ := table_model_line_of_fit _ (self.table_inliers cloud_in).length hfit
  split
  · next h =>
    simp [ptuFinderCallback_abandon self cloud_in msg hmsg h, published, Event.published?]
  · next h =>
    rw [ptuFinderCallback_proceed self cloud_in msg hmsg (not_le.mp h)]
    cases self.save_to_files_ <;>
      simp [published, List.filterMap_append, Event.published?]

lemma persisted_ptuFinderCallback (self : ExtractClusters K) (cloud_in : PointCloud K)
    (hfit : 4 ≤ (self.table_fit cloud_in).2.values.length) :
    persisted (self.ptuFinderCallback cloud_in)
      = if ((self.table_inliers cloud_in).length : Int) ≤ self.min_table_inliers_ then []
        else persisted
          (self.select_emit (self.cloud_object cloud_in) (self.clusters cloud_in)) := by
  obtain ⟨msg, hmsg⟩ := table_model_line_of_fit _ (self.table_inliers cloud_in).length hfit
  split
  · next h =>
    simp [ptuFinderCallback_abandon self cloud_in msg hmsg h, persisted, Event.persisted?]
  · next h =>
    rw [ptuFinderCallback_proceed self cloud_in msg hmsg (not_le.mp h)]
    cases self.save_to_files_ <;>
      simp [persisted, List.filterMap_append, Event.persisted?]

lemma exit_status_ptuFinderCallback (self : ExtractClusters K) (cloud_in : PointCloud K)
    (hfit : 4 ≤ (self.table_fit cloud_in).2.values.length) :
    exit_status (self.ptuFinderCallback cloud_in)
      = if ((self.table_inliers cloud_in).length : Int) ≤ self.min_table_inliers_ then none
        else if self.save_to_files_ then some 2 else none := by
  obtain ⟨msg, hmsg⟩ := table_model_line_of_fit _ (self.table_inliers cloud_in).length hfit
  split
  · next h =>
    simp [ptuFinderCallback_abandon self cloud_in msg hmsg h, exit_status,
      Event.exit_status?]
  · next h =>
    rw [ptuFinderCallback_proceed self cloud_in msg hmsg (not_le.mp h)]
    cases self.save_to_files_ <;>
      simp [exit_status, List.filterMap_append, Event.exit_status?, exit_select_emit]

/-- After the out-of-bounds read nothing is published or persisted by the model. -/
lemma observations_undefined (self : ExtractClusters K) (cloud_in : PointCloud K)
    (hshort : (self.table_fit cloud_in).2.values.length < 4) :
    published_objects (self.ptuFinderCallback cloud_in) = []
      ∧ published (self.ptuFinderCallback cloud_in) = []
      ∧ persisted (self.ptuFinderCallback cloud_in) = [] := by
  rw [ptuFinderCallback_undefined self cloud_in hshort]
  simp [published_objects, published, persisted, Event.published_object?,
    Event.published?, Event.persisted?]

end ExtractClusters

/-! ## Selector/Emitter -/

/-- C1: on a frame that passes the plane check (the plane fit has returned its four
coefficients and more than `min_table_inliers_` inliers) and has at least
`nr_cluster_ ≥ 0` clusters, the object clouds handed to the publish sink are the
materialized first `nr_cluster_` clusters, in discovery order: exactly `nr_cluster_`
clouds, the `i`-th one copied from the candidate cloud at the indices of `clusters[i]`. -/
theorem C1_emits_first_nr_cluster (self : ExtractClusters K) (cloud_in : PointCloud K)
    (hfit : 4 ≤ (self.table_fit cloud_in).2.values.length)
    (hplane : self.min_table_inliers_ < ((self.table_inliers cloud_in).length : Int))
    (hnr : 0 ≤ self.nr_cluster_)
    (hlen : self.nr_cluster_ ≤ ((self.clusters cloud_in).length : Int)) :
    published_objects (self.ptuFinderCallback cloud_in)
        = ((self.clusters cloud_in).take self.nr_cluster_.toNat).map
            (copyPointCloud (self.cloud_object cloud_in))
      ∧ ((published_objects (self.ptuFinderCallback cloud_in)).length : Int)
          = self.nr_cluster_
      ∧ ∀ i : Nat, (i : Int) < self.nr_cluster_ →
          (published_objects (self.ptuFinderCallback cloud_in))[i]?
            = ((self.clusters cloud_in)[i]?).map
                (copyPointCloud (self.cloud_object cloud_in)) := by
  have hle : self.nr_cluster_.toNat ≤ (self.clusters cloud_in).length := by omega
  have key : published_objects (self.ptuFinderCallback cloud_in)
      = ((self.clusters cloud_in).take self.nr_cluster_.toNat).map
          (copyPointCloud (self.cloud_object cloud_in)) := by
    rw [ExtractClusters.published_objects_ptuFinderCallback self cloud_in hfit,
      if_neg (not_le.mpr hplane), ExtractClusters.published_objects_select_emit,
      if_pos hlen]
    exact map_range_getD _ _ _ _ hle
  refine ⟨key, ?_, ?_⟩
  · rw [key, List.length_map, List.length_take, min_eq_left hle]
    exact Int.toNat_of_nonneg hnr
  · intro i hi
    have hi' : i < self.nr_cluster_.toNat := by omega
    rw [key, List.getElem?_map, List.getElem?_take_of_lt hi']

/-- C1 on a frame of three points, three clusters found and two asked for: the first two
single-point clouds are published. -/
theorem C1_emits_first_nr_cluster_witness :
    (4 ≤ ((Example.node 2 2 false).table_fit Example.frame3).2.values.length
      ∧ (Example.node 2 2 false).min_table_inliers_
        < (((Example.node 2 2 false).table_inliers Example.frame3).length : Int)
      ∧ 0 ≤ (Example.node 2 2 false).nr_cluster_
      ∧ (Example.node 2 2 false).nr_cluster_
        ≤ (((Example.node 2 2 false).clusters Example.frame3).length : Int))
    ∧ published_objects ((Example.node 2 2 false).ptuFinderCallback Example.frame3)
        = [[Example.pt 0 0 1], [Example.pt 1 0 1]] := by
  refine ⟨⟨by decide, by decide, by decide, by decide⟩, ?_⟩
  rw [(C1_emits_first_nr_cluster (Example.node 2 2 false) Example.frame3
    (by decide) (by decide) (by decide) (by decide)).1]
  decide

/-- C2: on a frame with fewer clusters than `nr_cluster_`, no object cloud is handed to
the publish sink and none to the persistence sink, whatever the persistence flag and the
clusters are. -/
theorem C2_too_few_clusters_emits_nothing (self : ExtractClusters K)
    (cloud_in : PointCloud K)
    (hlen : ((self.clusters cloud_in).length : Int) < self.nr_cluster_) :
    published_objects (self.ptuFinderCallback cloud_in) = []
      ∧ persisted (self.ptuFinderCallback cloud_in) = [] := by
  have h : ¬ self.nr_cluster_ ≤ ((self.clusters cloud_in).length : Int) := not_le.mpr hlen
  by_cases hfit : 4 ≤ (self.table_fit cloud_in).2.values.length
  · constructor
    · rw [ExtractClusters.published_objects_ptuFinderCallback self cloud_in hfit,
        ExtractClusters.published_objects_select_emit, if_neg h, ite_self]
    · simp [ExtractClusters.persisted_ptuFinderCallback self cloud_in hfit,
        ExtractClusters.persisted_select_emit, h]
  · have hu := ExtractClusters.observations_undefined self cloud_in (not_le.mp hfit)
    exact ⟨hu.1, hu.2.2⟩

/-- C2 on a frame of three points with three clusters found and four asked for, with the
persistence flag set. -/
theorem C2_too_few_clusters_emits_nothing_witness :
    (((Example.node 2 4 true).clusters Example.frame3).length : Int)
        < (Example.node 2 4 true).nr_cluster_
    ∧ published_objects ((Example.node 2 4 true).ptuFinderCallback Example.frame3) = []
    ∧ persisted ((Example.node 2 4 true).ptuFinderCallback Example.frame3) = [] :=
  ⟨by decide,
    C2_too_few_clusters_emits_nothing (Example.node 2 4 true) Example.frame3 (by decide)⟩

namespace ExtractClusters

lemma ros_error_not_mem_emit_cluster (self : ExtractClusters K) (co : PointCloud K)
    (cl : List PointIndices) (i : Nat) (msg : LogMsg K) :
    Event.ros_error msg ∉ self.emit_cluster co cl i := by
  cases h : self.save_to_files_ <;> simp [emit_cluster, h]

lemma ros_error_mem_select_emit (self : ExtractClusters K) (co : PointCloud K)
    (cl : List PointIndices) (msg : LogMsg K) :
    Event.ros_error msg ∈ self.select_emit co cl
      ↔ (cl.length : Int) < self.nr_cluster_
        ∧ msg = LogMsg.only_clusters_found cl.length self.object_cluster_min_size_ := by
  unfold select_emit
  split
  · next h =>
    simp [List.mem_flatMap, ros_error_not_mem_emit_cluster]
    intro h'
    omega
  · next h =>
    simp
    intro _
    omega

lemma insufficient_table_inliers_iff (self : ExtractClusters K) (cloud_in : PointCloud K) :
    insufficient_table_inliers (self.ptuFinderCallback cloud_in)
      ↔ 4 ≤ (self.table_fit cloud_in).2.values.length
        ∧ ((self.table_inliers cloud_in).length : Int) ≤ self.min_table_inliers_ := by
  unfold insufficient_table_inliers
  by_cases hfit : 4 ≤ (self.table_fit cloud_in).2.values.length
  · obtain ⟨msg, hmsg⟩ :=
      table_model_line_of_fit _ (self.table_inliers cloud_in).length hfit
    constructor
    · intro hmem
      refine ⟨hfit, ?_⟩
      by_contra hnot
      rw [ptuFinderCallback_proceed self cloud_in msg hmsg (not_le.mp hnot)] at hmem
      cases hs : self.save_to_files_ <;>
        simp [hs, ros_error_mem_select_emit] at hmem
    · rintro ⟨_, h⟩
      simp [ptuFinderCallback_abandon self cloud_in msg hmsg h]
  · rw [ptuFinderCallback_undefined self cloud_in (not_le.mp hfit)]
    simp [hfit]

lemma insufficient_clusters_iff (self : ExtractClusters K) (cloud_in : PointCloud K) :
    insufficient_clusters (self.ptuFinderCallback cloud_in)
      ↔ 4 ≤ (self.table_fit cloud_in).2.values.length
        ∧ self.min_table_inliers_ < ((self.table_inliers cloud_in).length : Int)
        ∧ ((self.clusters cloud_in).length : Int) < self.nr_cluster_ := by
  unfold insufficient_clusters
  by_cases hfit : 4 ≤ (self.table_fit cloud_in).2.values.length
  · obtain ⟨msg, hmsg⟩ :=
      table_model_line_of_fit _ (self.table_inliers cloud_in).length hfit
    constructor
    · rintro ⟨n, m, hmem⟩
      by_cases hpl : ((self.table_inliers cloud_in).length : Int) ≤ self.min_table_inliers_
      · simp [ptuFinderCallback_abandon self cloud_in msg hmsg hpl] at hmem
      · rw [ptuFinderCallback_proceed self cloud_in msg hmsg (not_le.mp hpl)] at hmem
        refine ⟨hfit, not_le.mp hpl, ?_⟩
        cases hs : self.save_to_files_ <;>
          simp [hs, ros_error_mem_select_emit] at hmem <;> exact hmem.1
    · rintro ⟨_, hpl, hlen⟩
      refine ⟨(self.clusters cloud_in).length, self.object_cluster_min_size_, ?_⟩
      rw [ptuFinderCallback_proceed self cloud_in msg hmsg hpl]
      simp [ros_error_mem_select_emit, hlen]
  · rw [ptuFinderCallback_undefined self cloud_in (not_le.mp hfit)]
    simp [hfit]

/-- A frame whose plane fit has returned its four coefficients and at most
`min_table_inliers_` inliers is abandoned right after the plane fit: the callback logs
and returns, nothing is published or persisted, the process does not exit, and the trace
does not depend on the projection, hull, prism, extraction or clustering stages. -/
lemma abandoned_frame_of_fit (self : ExtractClusters K) (cloud_in : PointCloud K)
    (hfit : 4 ≤ (self.table_fit cloud_in).2.values.length)
    (h : ((self.table_inliers cloud_in).length : Int) ≤ self.min_table_inliers_) :
    (∃ msg, self.ptuFinderCallback cloud_in
        = [Event.ros_info LogMsg.received_cloud, Event.ros_info msg,
           Event.ros_error LogMsg.table_too_few_inliers])
      ∧ published (self.ptuFinderCallback cloud_in) = []
      ∧ persisted (self.ptuFinderCallback cloud_in) = []
      ∧ exit_status (self.ptuFinderCallback cloud_in) = none
      ∧ ∀ pcl' : Pcl K, pcl'.vgrid_filter = self.pcl.vgrid_filter →
          pcl'.n3d_compute = self.pcl.n3d_compute →
          pcl'.seg_segment = self.pcl.seg_segment →
          ExtractClusters.ptuFinderCallback
              { min_table_inliers_ := self.min_table_inliers_,
                nr_cluster_ := self.nr_cluster_,
                object_cluster_min_size_ := self.object_cluster_min_size_,
                save_to_files_ := self.save_to_files_,
                object_name_ := self.object_name_,
                pcl := pcl' } cloud_in
            = self.ptuFinderCallback cloud_in := by
  obtain ⟨msg, hmsg⟩ := table_model_line_of_fit _ (self.table_inliers cloud_in).length hfit
  have habandon := ptuFinderCallback_abandon self cloud_in msg hmsg h
  refine ⟨⟨msg, habandon⟩, ?_, ?_, ?_, ?_⟩
  · simp [published_ptuFinderCallback self cloud_in hfit, h]
  · simp [persisted_ptuFinderCallback self cloud_in hfit, h]
  · simp [exit_status_ptuFinderCallback self cloud_in hfit, h]
  · intro pcl' h₁ h₂ h₃
    have hsame : ExtractClusters.table_fit
          { min_table_inliers_ := self.min_table_inliers_,
            nr_cluster_ := self.nr_cluster_,
            object_cluster_min_size_ := self.object_cluster_min_size_,
            save_to_files_ := self.save_to_files_,
            object_name_ := self.object_name_,
            pcl := pcl' } cloud_in
        = self.table_fit cloud_in := by
      simp [ExtractClusters.table_fit, ExtractClusters.cloud, h₁, h₂, h₃]
    rw [habandon]
    apply ptuFinderCallback_abandon
    · simpa [ExtractClusters.table_inliers, hsame] using hmsg
    · simpa [ExtractClusters.table_inliers, hsame] using h

end ExtractClusters

/-! ## Plane-fit failure -/

/-- C3 (the code at the failing input): on an empty frame the plane segmentation finds no
model and leaves the inliers and the coefficient vector empty.  The inlier count `0` is
at most the default minimum `100`, but the log line of lines 201-202 reads
`table_coeff.values[0..3]` before the guard of line 203: the read is outside the empty
vector, the error "table has to few inliers" is not reached and the callback does not
return normally. -/
theorem C3_failed_fit_reads_empty_coefficients :
    (((Example.node_no_plane false).table_inliers []).length : Int)
        ≤ (Example.node_no_plane false).min_table_inliers_
    ∧ ((Example.node_no_plane false).table_fit []).2.values = []
    ∧ (Example.node_no_plane false).ptuFinderCallback []
        = [Event.ros_info LogMsg.received_cloud, Event.undefined_behaviour]
    ∧ ¬ insufficient_table_inliers ((Example.node_no_plane false).ptuFinderCallback [])
    ∧ (Example.node_no_plane true).ptuFinderCallback []
        = [Event.ros_info LogMsg.received_cloud, Event.undefined_behaviour] := by
  refine ⟨by decide, by decide, by decide, ?_, by decide⟩
  rw [ExtractClusters.insufficient_table_inliers_iff]
  decide

/-- C4 (as stated, refuted): with the default minimum `100`, a frame with exactly `100`
plane inliers is abandoned with "table has to few inliers" and publishes nothing, so it is
not true that a frame is abandoned exactly when its inlier count is below the minimum. -/
theorem C4_equal_count_is_abandoned :
    (((Example.node 100 4 false).table_inliers Example.frame100).length : Int)
        = (Example.node 100 4 false).min_table_inliers_
    ∧ insufficient_table_inliers
        ((Example.node 100 4 false).ptuFinderCallback Example.frame100)
    ∧ published ((Example.node 100 4 false).ptuFinderCallback Example.frame100) = []
    ∧ ¬ (insufficient_table_inliers
          ((Example.node 100 4 false).ptuFinderCallback Example.frame100)
        ↔ (((Example.node 100 4 false).table_inliers Example.frame100).length : Int)
            < (Example.node 100 4 false).min_table_inliers_) := by
  have hlen : (((Example.node 100 4 false).table_inliers Example.frame100).length : Int)
      = (Example.node 100 4 false).min_table_inliers_ := by decide
  have hab : insufficient_table_inliers
      ((Example.node 100 4 false).ptuFinderCallback Example.frame100) :=
    (ExtractClusters.insufficient_table_inliers_iff _ _).mpr
      ⟨Example.fit_found _ _ _ _, le_of_eq hlen⟩
  refine ⟨hlen, hab, ?_, ?_⟩
  · simp [ExtractClusters.published_ptuFinderCallback _ _ (Example.fit_found _ _ _ _), hlen]
  · intro hiff
    have := hiff.mp hab
    omega

/-- C4 (amended): a frame whose plane fit has returned its four coefficients is abandoned
with "table has to few inliers" exactly when its plane-fit inlier count is at most
`min_table_inliers_`, and its hull is published (the frame proceeds to the hull, prism and
clustering stages) exactly when the count is strictly greater than
`min_table_inliers_`. -/
theorem C4_abandoned_iff_count_le_min (self : ExtractClusters K) (cloud_in : PointCloud K)
    (hfit : 4 ≤ (self.table_fit cloud_in).2.values.length) :
    (insufficient_table_inliers (self.ptuFinderCallback cloud_in)
        ↔ ((self.table_inliers cloud_in).length : Int) ≤ self.min_table_inliers_)
      ∧ ((Publisher.cloud_pub_, self.cloud_hull cloud_in)
            ∈ published (self.ptuFinderCallback cloud_in)
        ↔ self.min_table_inliers_ < ((self.table_inliers cloud_in).length : Int)) := by
  constructor
  · rw [ExtractClusters.insufficient_table_inliers_iff]
    exact ⟨fun h => h.2, fun h => ⟨hfit, h⟩⟩
  · rw [ExtractClusters.published_ptuFinderCallback self cloud_in hfit]
    split
    · next h => simp [h]
    · next h => simp [not_le.mp h]

/-- C4 (amended) on two frames of three points whose fit has four coefficients: with the
minimum `3` the frame is abandoned and no hull is published, with the minimum `2` the
hull is published and the error is not logged. -/
theorem C4_abandoned_iff_count_le_min_witness :
    (4 ≤ ((Example.node 3 4 false).table_fit Example.frame3).2.values.length
      ∧ 4 ≤ ((Example.node 2 4 false).table_fit Example.frame3).2.values.length)
    ∧ insufficient_table_inliers ((Example.node 3 4 false).ptuFinderCallback Example.frame3)
    ∧ (Publisher.cloud_pub_, (Example.node 3 4 false).cloud_hull Example.frame3)
        ∉ published ((Example.node 3 4 false).ptuFinderCallback Example.frame3)
    ∧ ¬ insufficient_table_inliers
        ((Example.node 2 4 false).ptuFinderCallback Example.frame3)
    ∧ (Publisher.cloud_pub_, (Example.node 2 4 false).cloud_hull Example.frame3)
        ∈ published ((Example.node 2 4 false).ptuFinderCallback Example.frame3) := by
  have h3 := C4_abandoned_iff_count_le_min (Example.node 3 4 false) Example.frame3
    (by decide)
  have h2 := C4_abandoned_iff_count_le_min (Example.node 2 4 false) Example.frame3
    (by decide)
  refine ⟨⟨by decide, by decide⟩, h3.1.mpr (by decide), ?_, ?_, h2.2.mpr (by decide)⟩
  · rw [h3.2]
    decide
  · rw [h2.1]
    decide

/-! ## One-shot capture -/

/-- C5: on a frame that passes the plane check (the plane fit has returned its four
coefficients and more than `min_table_inliers_` inliers) and has at least `nr_cluster_`
clusters, with the persistence flag set each of the first `nr_cluster_` object clouds is
both persisted and published, and `exit (2)` is the last effect, after all of them; with
the flag not set nothing is persisted and the process does not exit. -/
theorem C5_one_shot_capture (self : ExtractClusters K) (cloud_in : PointCloud K)
    (hfit : 4 ≤ (self.table_fit cloud_in).2.values.length)
    (hplane : self.min_table_inliers_ < ((self.table_inliers cloud_in).length : Int))
    (hlen : self.nr_cluster_ ≤ ((self.clusters cloud_in).length : Int)) :
    (self.save_to_files_ = true →
        (persisted (self.ptuFinderCallback cloud_in)).map Prod.snd
            = ((self.clusters cloud_in).take self.nr_cluster_.toNat).map
                (copyPointCloud (self.cloud_object cloud_in))
          ∧ published_objects (self.ptuFinderCallback cloud_in)
            = ((self.clusters cloud_in).take self.nr_cluster_.toNat).map
                (copyPointCloud (self.cloud_object cloud_in))
          ∧ exit_status (self.ptuFinderCallback cloud_in) = some 2
          ∧ ∃ es : List (Event K),
              self.ptuFinderCallback cloud_in = es ++ [Event.exit 2]
                ∧ exit_status es = none
                ∧ persisted es = persisted (self.ptuFinderCallback cloud_in)
                ∧ published_objects es
                    = published_objects (self.ptuFinderCallback cloud_in))
      ∧ (self.save_to_files_ = false →
          persisted (self.ptuFinderCallback cloud_in) = []
            ∧ exit_status (self.ptuFinderCallback cloud_in) = none) := by
  have hle : self.nr_cluster_.toNat ≤ (self.clusters cloud_in).length := by omega
  have hnp : ¬ ((self.table_inliers cloud_in).length : Int) ≤ self.min_table_inliers_ :=
    not_le.mpr hplane
  obtain ⟨msg, hmsg⟩ := ExtractClusters.table_model_line_of_fit _
    (self.table_inliers cloud_in).length hfit
  have hcb := ExtractClusters.ptuFinderCallback_proceed self cloud_in msg hmsg hplane
  constructor
  · intro hs
    refine ⟨?_, ?_, ?_, ?_⟩
    · rw [ExtractClusters.persisted_ptuFinderCallback self cloud_in hfit, if_neg hnp,
        ExtractClusters.persisted_select_emit, if_pos ⟨hlen, hs⟩, List.map_map]
      exact map_range_getD _ _ _ _ hle
    · rw [ExtractClusters.published_objects_ptuFinderCallback self cloud_in hfit,
        if_neg hnp, ExtractClusters.published_objects_select_emit, if_pos hlen]
      exact map_range_getD _ _ _ _ hle
    · simp [ExtractClusters.exit_status_ptuFinderCallback self cloud_in hfit, hnp, hs]
    · refine ⟨[Event.ros_info LogMsg.received_cloud, Event.ros_info msg,
          Event.publish Publisher.cloud_pub_ (self.cloud_hull cloud_in)] ++
          self.select_emit (self.cloud_object cloud_in) (self.clusters cloud_in),
        ?_, ?_, ?_, ?_⟩
      · rw [hcb, hs]
        rfl
      · simp [exit_status, List.filterMap_append, Event.exit_status?,
          ExtractClusters.exit_select_emit]
      · rw [hcb, hs]
        simp [persisted, List.filterMap_append, Event.persisted?]
      · rw [hcb, hs]
        simp [published_objects, List.filterMap_append, Event.published_object?]
  · intro hs
    constructor
    · simp [ExtractClusters.persisted_ptuFinderCallback self cloud_in hfit,
        ExtractClusters.persisted_select_emit, hs]
    · simp [ExtractClusters.exit_status_ptuFinderCallback self cloud_in hfit, hs]

/-- C5 on a frame of three points, two clusters asked for, with the persistence flag
set. -/
theorem C5_one_shot_capture_witness :
    (4 ≤ ((Example.node 2 2 true).table_fit Example.frame3).2.values.length
      ∧ (Example.node 2 2 true).min_table_inliers_
        < (((Example.node 2 2 true).table_inliers Example.frame3).length : Int)
      ∧ (Example.node 2 2 true).nr_cluster_
        ≤ (((Example.node 2 2 true).clusters Example.frame3).length : Int)
      ∧ (Example.node 2 2 true).save_to_files_ = true)
    ∧ (persisted ((Example.node 2 2 true).ptuFinderCallback Example.frame3)).map Prod.snd
        = [[Example.pt 0 0 1], [Example.pt 1 0 1]]
    ∧ exit_status ((Example.node 2 2 true).ptuFinderCallback Example.frame3) = some 2 := by
  have h := (C5_one_shot_capture (Example.node 2 2 true) Example.frame3
    (by decide) (by decide) (by decide)).1 rfl
  refine ⟨⟨by decide, by decide, by decide, rfl⟩, ?_, h.2.2.1⟩
  rw [h.1]
  decide

/-- C6 (the code at the failing input): with the persistence flag set and `nr_cluster_ = 4`,
a frame that passes the plane check (3 inliers, minimum 2) but has only 3 clusters is
reported as having too few clusters, nothing is persisted, and the callback still ends
the process with `exit (2)`. -/
theorem C6_exit_without_capture :
    insufficient_clusters ((Example.node 2 4 true).ptuFinderCallback Example.frame3)
    ∧ persisted ((Example.node 2 4 true).ptuFinderCallback Example.frame3) = []
    ∧ published_objects ((Example.node 2 4 true).ptuFinderCallback Example.frame3) = []
    ∧ exit_status ((Example.node 2 4 true).ptuFinderCallback Example.frame3) = some 2 := by
  refine ⟨?_, by decide, by decide, by decide⟩
  rw [ExtractClusters.insufficient_clusters_iff]
  decide

/-! ## Failed frames -/

/-- C7 (as stated, refuted): a frame that passes the plane check (3 inliers, minimum 2)
but has only 3 of the 4 clusters asked for ends with the too-few-clusters error, and the
publish sink has nevertheless received the hull of that frame. -/
theorem C7_hull_published_on_failed_frame :
    insufficient_clusters ((Example.node 2 4 false).ptuFinderCallback Example.frame3)
    ∧ published ((Example.node 2 4 false).ptuFinderCallback Example.frame3)
        = [(Publisher.cloud_pub_, Example.frame3)]
    ∧ published ((Example.node 2 4 false).ptuFinderCallback Example.frame3) ≠ [] := by
  refine ⟨?_, by decide, by decide⟩
  rw [ExtractClusters.insufficient_clusters_iff]
  decide

/-- C7 (amended): for a frame that ends with the too-few-inliers error or with the
too-few-clusters error, nothing is persisted and no object cloud is published; after
the too-few-inliers error nothing at all is published, and after the too-few-clusters
error the hull of the frame, and nothing else, has been published. -/
theorem C7_failed_frame_output (self : ExtractClusters K) (cloud_in : PointCloud K)
    (hfail : insufficient_table_inliers (self.ptuFinderCallback cloud_in)
      ∨ insufficient_clusters (self.ptuFinderCallback cloud_in)) :
    persisted (self.ptuFinderCallback cloud_in) = []
      ∧ published_objects (self.ptuFinderCallback cloud_in) = []
      ∧ (insufficient_table_inliers (self.ptuFinderCallback cloud_in) →
          published (self.ptuFinderCallback cloud_in) = [])
      ∧ (insufficient_clusters (self.ptuFinderCallback cloud_in) →
          published (self.ptuFinderCallback cloud_in)
            = [(Publisher.cloud_pub_, self.cloud_hull cloud_in)]) := by
  rw [ExtractClusters.insufficient_table_inliers_iff,
    ExtractClusters.insufficient_clusters_iff] at hfail
  rw [ExtractClusters.insufficient_table_inliers_iff,
    ExtractClusters.insufficient_clusters_iff]
  refine ⟨?_, ?_, ?_, ?_⟩
  · rcases hfail with ⟨hfit, h⟩ | ⟨hfit, _, h⟩
    · simp [ExtractClusters.persisted_ptuFinderCallback self cloud_in hfit, h]
    · simp [ExtractClusters.persisted_ptuFinderCallback self cloud_in hfit,
        ExtractClusters.persisted_select_emit, not_le.mpr h]
  · rcases hfail with ⟨hfit, h⟩ | ⟨hfit, _, h⟩
    · simp [ExtractClusters.published_objects_ptuFinderCallback self cloud_in hfit, h]
    · simp [ExtractClusters.published_objects_ptuFinderCallback self cloud_in hfit,
        ExtractClusters.published_objects_select_emit, not_le.mpr h]
  · rintro ⟨hfit, h⟩
    simp [ExtractClusters.published_ptuFinderCallback self cloud_in hfit, h]
  · rintro ⟨hfit, hpl, h⟩
    simp [ExtractClusters.published_ptuFinderCallback self cloud_in hfit,
      ExtractClusters.published_select_emit, not_le.mpr hpl, not_le.mpr h]

/-- C7 (amended) on a frame that passes the plane check with three clusters found and four
asked for. -/
theorem C7_failed_frame_output_witness :
    insufficient_clusters ((Example.node 2 4 true).ptuFinderCallback Example.frame3)
    ∧ persisted ((Example.node 2 4 true).ptuFinderCallback Example.frame3) = []
    ∧ published_objects ((Example.node 2 4 true).ptuFinderCallback Example.frame3) = []
    ∧ published ((Example.node 2 4 true).ptuFinderCallback Example.frame3)
        = [(Publisher.cloud_pub_, Example.frame3)] := by
  have hc : insufficient_clusters
      ((Example.node 2 4 true).ptuFinderCallback Example.frame3) := by
    rw [ExtractClusters.insufficient_clusters_iff]
    decide
  have h := C7_failed_frame_output (Example.node 2 4 true) Example.frame3 (Or.inr hc)
  exact ⟨hc, h.1, h.2.1, h.2.2.2 hc⟩

/-! ## The `%04d` conversion -/

section Sprintf

lemma digitChar_isDigit (d : Nat) (hd : d < 10) : (Nat.digitChar d).isDigit = true := by
  interval_cases d <;> decide

lemma digitChar_value (d : Nat) (hd : d < 10) : (Nat.digitChar d).toNat - 48 = d := by
  interval_cases d <;> decide

lemma toDigitsCore_acc (fuel : Nat) : ∀ (n : Nat) (ds : List Char),
    Nat.toDigitsCore 10 fuel n ds = Nat.toDigitsCore 10 fuel n [] ++ ds := by
  induction fuel with
  | zero => intro n ds; simp [Nat.toDigitsCore]
  | succ fuel ih =>
    intro n ds
    simp only [Nat.toDigitsCore]
    split
    · simp
    · rw [ih (n / 10) (Nat.digitChar (n % 10) :: ds), ih (n / 10) [Nat.digitChar (n % 10)]]
      simp

lemma decimal_value_append (cs : List Char) (c : Char) :
    decimal_value (cs ++ [c]) = 10 * decimal_value cs + (c.toNat - 48) := by
  simp [decimal_value, List.foldl_append]

lemma decimal_value_toDigitsCore (fuel : Nat) : ∀ n : Nat, n < fuel →
    decimal_value (Nat.toDigitsCore 10 fuel n []) = n := by
  induction fuel with
  | zero => intro n h; omega
  | succ fuel ih =>
    intro n h
    simp only [Nat.toDigitsCore]
    have hd : n % 10 < 10 := Nat.mod_lt _ (by decide)
    split
    · next h0 =>
      have hn : n % 10 = n := by omega
      have hv := digitChar_value _ hd
      rw [hn] at hv ⊢
      simpa [decimal_value] using hv
    · next h0 =>
      rw [toDigitsCore_acc, decimal_value_append, ih (n / 10) (by omega),
        digitChar_value _ hd]
      omega

lemma isDigit_toDigitsCore (fuel : Nat) : ∀ (n : Nat) (ds : List Char),
    (∀ c ∈ ds, c.isDigit = true) →
    ∀ c ∈ Nat.toDigitsCore 10 fuel n ds, c.isDigit = true := by
  induction fuel with
  | zero => intro n ds h; simpa [Nat.toDigitsCore] using h
  | succ fuel ih =>
    intro n ds h
    have hd : (Nat.digitChar (n % 10)).isDigit = true :=
      digitChar_isDigit _ (Nat.mod_lt _ (by decide))
    have h' : ∀ c ∈ Nat.digitChar (n % 10) :: ds, c.isDigit = true := by
      intro c hc
      rcases List.mem_cons.mp hc with rfl | hc
      · exact hd
      · exact h c hc
    simp only [Nat.toDigitsCore]
    split
    · exact h'
    · exact ih _ _ h'

lemma decimal_value_replicate_zero (k : Nat) (ds : List Char) :
    decimal_value (List.replicate k '0' ++ ds) = decimal_value ds := by
  induction k with
  | zero => simp
  | succ k ih =>
    have h0 : decimal_value (List.replicate k '0' ++ ds)
        = List.foldl (fun a c => 10 * a + (c.toNat - 48)) 0
            (List.replicate k '0' ++ ds) := rfl
    rw [← ih, h0]
    simp [decimal_value, List.replicate_succ]

lemma decimal_value_sprintf_04d (i : Nat) : decimal_value (sprintf_04d i).data = i := by
  simp only [sprintf_04d, decimal_value_replicate_zero]
  exact decimal_value_toDigitsCore (i + 1) i (Nat.lt_succ_self i)

lemma sprintf_04d_injective : Function.Injective sprintf_04d := by
  intro i j h
  rw [← decimal_value_sprintf_04d i, ← decimal_value_sprintf_04d j, h]

lemma length_sprintf_04d (i : Nat) (hi : i < 10000) : (sprintf_04d i).length = 4 := by
  have h : (Nat.toDigits 10 i).length ≤ 4 :=
    Nat.toDigitsCore_length 10 (by decide) (i + 1) i 4 (by simpa using hi) (by decide)
  simp only [sprintf_04d, String.length, List.length_append, List.length_replicate]
  omega

lemma isDigit_sprintf_04d (i : Nat) : ∀ c ∈ (sprintf_04d i).data, c.isDigit = true := by
  intro c hc
  simp only [sprintf_04d, List.mem_append] at hc
  rcases hc with hc | hc
  · rw [(List.mem_replicate.mp hc).2]
    decide
  · exact isDigit_toDigitsCore (i + 1) i [] (by simp) c hc

lemma isDigit_value_le (c : Char) (h : c.isDigit = true) : c.toNat - 48 ≤ 9 := by
  simp only [Char.isDigit, Bool.and_eq_true, decide_eq_true_eq] at h
  have h₂ : c.val.toNat ≤ 57 := h.2
  show c.val.toNat - 48 ≤ 9
  omega

lemma decimal_value_lt_pow (cs : List Char) :
    (∀ c ∈ cs, c.isDigit = true) → decimal_value cs < 10 ^ cs.length := by
  induction cs using List.reverseRecOn with
  | nil => intro _; simp [decimal_value]
  | append_singleton cs c ih =>
    intro h
    have hcs := ih (fun d hd => h d (List.mem_append_left _ hd))
    have hc := isDigit_value_le c (h c (by simp))
    rw [decimal_value_append, List.length_append, List.length_singleton, pow_succ]
    omega

lemma decimal_value_toDigits (i : Nat) : decimal_value (Nat.toDigits 10 i) = i :=
  decimal_value_toDigitsCore (i + 1) i (Nat.lt_succ_self i)

/-- A number of at least `10 ^ k` has more than `k` decimal digits. -/
lemma length_toDigits_gt (k i : Nat) (h : 10 ^ k ≤ i) : k < (Nat.toDigits 10 i).length := by
  by_contra hle
  have hlt := decimal_value_lt_pow (Nat.toDigits 10 i)
    (isDigit_toDigitsCore (i + 1) i [] (by simp))
  rw [decimal_value_toDigits] at hlt
  have hpow : 10 ^ (Nat.toDigits 10 i).length ≤ 10 ^ k :=
    Nat.pow_le_pow_right (by decide) (not_lt.mp hle)
  omega

lemma length_sprintf_04d_ge (i : Nat) : 4 ≤ (sprintf_04d i).length := by
  simp only [sprintf_04d, String.length, List.length_append, List.length_replicate]
  omega

lemma length_sprintf_04d_gt (i : Nat) (hi : 10000 ≤ i) : 4 < (sprintf_04d i).length := by
  have h := length_toDigits_gt 4 i (by simpa using hi)
  simp only [sprintf_04d, String.length, List.length_append, List.length_replicate]
  omega

/-- The conversion is the decimal rendering `Nat.repr i`, with zeros in front up to the
width four. -/
lemma sprintf_04d_eq_pad (i : Nat) :
    sprintf_04d i
      = String.mk (List.replicate (4 - (Nat.repr i).length) '0') ++ Nat.repr i :=
  rfl

lemma sprintf_04d_eq_repr (i : Nat) (hi : 1000 ≤ i) : sprintf_04d i = Nat.repr i := by
  have h := length_toDigits_gt 3 i (by simpa using hi)
  have h0 : 4 - (Nat.toDigits 10 i).length = 0 := by omega
  simp only [sprintf_04d, h0, List.replicate_zero, List.nil_append]
  rfl

end Sprintf

/-! ## Persistence naming -/

lemma copyPointCloud_range (c : PointCloud K) :
    copyPointCloud c (List.range c.length) = c := by
  unfold copyPointCloud
  induction c with
  | nil => rfl
  | cons a c ih =>
    rw [List.length_cons, List.range_succ_eq_map, List.filterMap_cons]
    simpa [List.filterMap_map, Function.comp_def] using ih

namespace Example

lemma length_table_inliers (a b : Int) (s : Bool) (c : PointCloud Int) :
    ((node a b s).table_inliers c).length = c.length := by
  simp [ExtractClusters.table_inliers, ExtractClusters.table_fit, ExtractClusters.cloud,
    node, pcl]

lemma cloud_object_eq (a b : Int) (s : Bool) (c : PointCloud Int) :
    (node a b s).cloud_object c = c :=
  copyPointCloud_range c

lemma length_clusters (a b : Int) (s : Bool) (c : PointCloud Int) :
    ((node a b s).clusters c).length = c.length := by
  rw [ExtractClusters.clusters, cloud_object_eq]
  simp [node, pcl]

end Example

namespace ExtractClusters

lemma file_name_injective (self : ExtractClusters K) : Function.Injective self.file_name := by
  intro i j h
  have hd := congrArg String.data h
  simp only [file_name, String.data_append, List.append_assoc] at hd
  have h₁ := List.append_cancel_left hd
  have h₂ := List.append_cancel_left h₁
  have h₃ := List.append_cancel_right h₂
  exact sprintf_04d_injective (String.ext h₃)

lemma length_file_name (self : ExtractClusters K) (i : Nat) (hi : i < 10000) :
    (self.file_name i).length = self.object_name_.length + 9 := by
  simp only [file_name, String.length_append, length_sprintf_04d i hi]
  rfl

end ExtractClusters

/-- C8 (as stated, refuted): with 10001 clusters asked for and found, the cluster at
position 10000 is persisted under `mug_10000.pcd`, whose index has five digits, while the
cluster at position 0 is persisted under `mug_0000.pcd`: the two names differ in length. -/
theorem C8_five_digit_index :
    ((persisted ((Example.node 2 10001 true).ptuFinderCallback Example.frame10001))[10000]?).map
        Prod.fst = some "mug_10000.pcd"
    ∧ ((persisted ((Example.node 2 10001 true).ptuFinderCallback Example.frame10001))[0]?).map
        Prod.fst = some "mug_0000.pcd"
    ∧ (sprintf_04d 10000).length = 5
    ∧ "mug_10000.pcd".length ≠ "mug_0000.pcd".length := by
  have hframe : Example.frame10001.length = 10001 := by simp [Example.frame10001]
  have hpl : ¬ (((Example.node 2 10001 true).table_inliers Example.frame10001).length : Int)
      ≤ (Example.node 2 10001 true).min_table_inliers_ := by
    rw [Example.length_table_inliers, hframe]
    decide
  have hlen : (Example.node 2 10001 true).nr_cluster_
      ≤ (((Example.node 2 10001 true).clusters Example.frame10001).length : Int) := by
    rw [Example.length_clusters, hframe]
    decide
  have hn : (Example.node 2 10001 true).nr_cluster_.toNat = 10001 := rfl
  rw [ExtractClusters.persisted_ptuFinderCallback _ _ (Example.fit_found _ _ _ _),
    if_neg hpl, ExtractClusters.persisted_select_emit, if_pos ⟨hlen, rfl⟩, hn]
  refine ⟨?_, ?_, by decide, by decide⟩
  · simp only [List.getElem?_map, Option.map_map]
    rw [List.getElem?_range (by norm_num)]
    decide
  · simp only [List.getElem?_map, Option.map_map]
    rw [List.getElem?_range (by norm_num)]
    decide

/-- C8 (amended): with the persistence flag set, on a frame that passes the plane check
and has at least `nr_cluster_` clusters, the cluster at position `i < nr_cluster_` of the
emitted sequence is persisted under the file name
`object_name_ ++ "_" ++ index ++ ".pcd"`, where `index` is `i` in decimal, zero-padded to
at least four characters: for every `i` it consists of decimal digits that read `i` and
is the decimal rendering of `i` with zeros in front up to the width four; for `i < 10000`
it has exactly four digits, for `i ≥ 10000` it has more than four and is the plain decimal
rendering.  Distinct positions give distinct names, and the names of positions below
10000 have equal length. -/
theorem C8_persistence_names (self : ExtractClusters K) (cloud_in : PointCloud K)
    (hfit : 4 ≤ (self.table_fit cloud_in).2.values.length)
    (hplane : self.min_table_inliers_ < ((self.table_inliers cloud_in).length : Int))
    (hlen : self.nr_cluster_ ≤ ((self.clusters cloud_in).length : Int))
    (hs : self.save_to_files_ = true) :
    (persisted (self.ptuFinderCallback cloud_in)).map Prod.fst
        = (List.range self.nr_cluster_.toNat).map
            (fun i => self.object_name_ ++ "_" ++ sprintf_04d i ++ ".pcd")
      ∧ (∀ i : Nat, (i : Int) < self.nr_cluster_ →
          ((persisted (self.ptuFinderCallback cloud_in))[i]?).map Prod.fst
            = some (self.object_name_ ++ "_" ++ sprintf_04d i ++ ".pcd"))
      ∧ (∀ i : Nat,
          (∀ c ∈ (sprintf_04d i).data, c.isDigit = true)
            ∧ decimal_value (sprintf_04d i).data = i
            ∧ sprintf_04d i
                = String.mk (List.replicate (4 - (Nat.repr i).length) '0') ++ Nat.repr i
            ∧ 4 ≤ (sprintf_04d i).length
            ∧ (i < 10000 → (sprintf_04d i).length = 4)
            ∧ (10000 ≤ i → 4 < (sprintf_04d i).length ∧ sprintf_04d i = Nat.repr i))
      ∧ (∀ i j : Nat, i ≠ j →
          self.object_name_ ++ "_" ++ sprintf_04d i ++ ".pcd"
            ≠ self.object_name_ ++ "_" ++ sprintf_04d j ++ ".pcd")
      ∧ (∀ i j : Nat, i < 10000 → j < 10000 →
          (self.object_name_ ++ "_" ++ sprintf_04d i ++ ".pcd").length
            = (self.object_name_ ++ "_" ++ sprintf_04d j ++ ".pcd").length) := by
  have hnames : (persisted (self.ptuFinderCallback cloud_in)).map Prod.fst
      = (List.range self.nr_cluster_.toNat).map
          (fun i => self.object_name_ ++ "_" ++ sprintf_04d i ++ ".pcd") := by
    rw [ExtractClusters.persisted_ptuFinderCallback self cloud_in hfit,
      if_neg (not_le.mpr hplane), ExtractClusters.persisted_select_emit,
      if_pos ⟨hlen, hs⟩, List.map_map]
    rfl
  refine ⟨hnames, ?_, ?_, ?_, ?_⟩
  · intro i hi
    have hi' : i < self.nr_cluster_.toNat := by omega
    rw [← List.getElem?_map, hnames, List.getElem?_map, List.getElem?_range hi']
    rfl
  · intro i
    exact ⟨isDigit_sprintf_04d i, decimal_value_sprintf_04d i, sprintf_04d_eq_pad i,
      length_sprintf_04d_ge i, length_sprintf_04d i,
      fun hi => ⟨length_sprintf_04d_gt i hi, sprintf_04d_eq_repr i (by omega)⟩⟩
  · intro i j hij h
    exact hij (ExtractClusters.file_name_injective self h)
  · intro i j hi hj
    exact (ExtractClusters.length_file_name self i hi).trans
      (ExtractClusters.length_file_name self j hj).symm

/-- C8 (amended) on a frame of three points with two clusters asked for and the object
name `mug`. -/
theorem C8_persistence_names_witness :
    (4 ≤ ((Example.node 2 2 true).table_fit Example.frame3).2.values.length
      ∧ (Example.node 2 2 true).min_table_inliers_
        < (((Example.node 2 2 true).table_inliers Example.frame3).length : Int)
      ∧ (Example.node 2 2 true).nr_cluster_
        ≤ (((Example.node 2 2 true).clusters Example.frame3).length : Int)
      ∧ (Example.node 2 2 true).save_to_files_ = true)
    ∧ (persisted ((Example.node 2 2 true).ptuFinderCallback Example.frame3)).map Prod.fst
        = ["mug_0000.pcd", "mug_0001.pcd"] := by
  refine ⟨⟨by decide, by decide, by decide, rfl⟩, ?_⟩
  rw [(C8_persistence_names (Example.node 2 2 true) Example.frame3
    (by decide) (by decide) (by decide) rfl).1]
  decide

/-! ## Polygon area: invariance -/

section AreaLemmas

variable {F : Type} [LinearOrderedField F]

lemma cross_term_antisymm (k1 k2 : Nat) (p q : Point F) :
    cross_term k1 k2 p q = -cross_term k1 k2 q p := by
  unfold cross_term
  ring

lemma foldl_add_eq_sum (g : Nat → F) (l : List Nat) (a : F) :
    l.foldl (fun area i => area + g i) a = a + (l.map g).sum := by
  induction l generalizing a with
  | nil => simp
  | cons i l ih => simp [ih, add_assoc]

lemma shoelace_sum_eq_zipWith (ps : PointCloud F) (k1 k2 : Nat) :
    shoelace_sum ps k1 k2 = (List.zipWith (cross_term k1 k2) ps (ps.rotate 1)).sum := by
  have hstep : (fun (area : F) (i : Nat) =>
      match ps[i]?, ps[(i + 1) % ps.length]? with
      | some p_i, some p_j => area + cross_term k1 k2 p_i p_j
      | _, _ => area)
      = fun area i => area + (match ps[i]?, ps[(i + 1) % ps.length]? with
          | some p_i, some p_j => cross_term k1 k2 p_i p_j
          | _, _ => 0) := by
    funext area i
    split <;> simp_all [cross_term]
  unfold shoelace_sum
  rw [hstep, foldl_add_eq_sum, zero_add]
  congr 1
  apply List.ext_getElem
  · simp
  · intro i h₁ h₂
    have hi : i < ps.length := by simpa using h₁
    have hj : (i + 1) % ps.length < ps.length := Nat.mod_lt _ (by omega)
    simp [List.getElem_rotate, List.getElem?_eq_getElem hi, List.getElem?_eq_getElem hj]

lemma zipWith_sum_neg_swap (k1 k2 : Nat) : ∀ (l l' : List (Point F)),
    (List.zipWith (cross_term k1 k2) l l').sum
      = -(List.zipWith (cross_term k1 k2) l' l).sum
  | [], _ => by simp
  | _ :: _, [] => by simp
  | p :: l, q :: l' => by
    simp only [List.zipWith_cons_cons, List.sum_cons, zipWith_sum_neg_swap k1 k2 l l',
      cross_term_antisymm k1 k2 p q]
    ring

lemma shoelace_sum_rotate (ps : PointCloud F) (k k1 k2 : Nat) :
    shoelace_sum (ps.rotate k) k1 k2 = shoelace_sum ps k1 k2 := by
  rw [shoelace_sum_eq_zipWith, shoelace_sum_eq_zipWith, List.rotate_rotate, add_comm k 1,
    ← List.rotate_rotate, ← List.zipWith_rotate_distrib _ _ _ _ (by simp)]
  exact (List.rotate_perm _ k).sum_eq

lemma shoelace_sum_reverse (ps : PointCloud F) (k1 k2 : Nat) :
    shoelace_sum ps.reverse k1 k2 = -shoelace_sum ps k1 k2 := by
  have hrot : ps.reverse.rotate 1 = (ps.rotate (ps.length - 1 % ps.length)).reverse :=
    List.rotate_reverse ps 1
  have hback : (ps.rotate (ps.length - 1 % ps.length)).rotate 1 = ps := by
    rw [List.rotate_rotate]
    rcases Nat.lt_or_ge 1 ps.length with h | h
    · rw [Nat.mod_eq_of_lt h, Nat.sub_add_cancel (le_of_lt h), List.rotate_length]
    · match ps, h with
      | [], _ => simp
      | [p], _ => simp
  rw [shoelace_sum_eq_zipWith, hrot, ← List.reverse_zipWith (by simp), List.sum_reverse,
    zipWith_sum_neg_swap]
  congr 1
  have h := shoelace_sum_rotate ps (ps.length - 1 % ps.length) k1 k2
  rw [shoelace_sum_eq_zipWith, shoelace_sum_eq_zipWith, hback] at h
  rw [shoelace_sum_eq_zipWith ps]
  exact h

/-- The unit square in the `xy`-plane with normal `(0, 0, 1)` has area `1`. -/
lemma compute2DPolygonalArea_unit_square :
    compute2DPolygonalArea (K := ℚ)
      [⟨0, 0, 0, 0⟩, ⟨1, 0, 0, 0⟩, ⟨1, 1, 0, 0⟩, ⟨0, 1, 0, 0⟩] [0, 0, 1] = some 1 := by
  norm_num [compute2DPolygonalArea, dominant_axis, shoelace_sum, cross_term, Point.coord,
    List.range, List.range.loop]

end AreaLemmas

/-- C9: `compute2DPolygonalArea` is invariant under cyclic rotation of the vertex
sequence, for every vertex list, every rotation amount and every normal (over exact
arithmetic). -/
theorem C9_area_rotate_invariant {F : Type} [LinearOrderedField F] (ps : PointCloud F)
    (k : Nat) (normal : List F) :
    compute2DPolygonalArea (ps.rotate k) normal = compute2DPolygonalArea ps normal := by
  simp only [compute2DPolygonalArea, shoelace_sum_rotate]

/-- C10: `compute2DPolygonalArea` is invariant under reversal of the winding order, for
every vertex list and every normal (over exact arithmetic): the shoelace sum changes sign
and its absolute value is taken. -/
theorem C10_area_reverse_invariant {F : Type} [LinearOrderedField F] (ps : PointCloud F)
    (normal : List F) :
    compute2DPolygonalArea ps.reverse normal = compute2DPolygonalArea ps normal
      ∧ ∀ k1 k2 : Nat, shoelace_sum ps.reverse k1 k2 = -shoelace_sum ps k1 k2 := by
  refine ⟨?_, shoelace_sum_reverse ps⟩
  simp only [compute2DPolygonalArea, shoelace_sum_reverse, abs_neg]

/-! ## Invocation -/

/-- C12: when `main` is invoked without an object-name argument (`argc < 2`) it logs the
usage line and ends the process with `exit (2)`: the node is not constructed, nothing is
subscribed and `ros::spin` is not reached, so no frame is processed.  With `argc ≥ 2` the
exit is not taken, the node is constructed and subscribed, and `argv[1]` becomes the
object name. -/
theorem C12_invocation_without_object_name (argv : List String) :
    ((argv.length : Int) < 2 →
        main argv
            = [MainEvent.ros_init "extract_clusters", MainEvent.node_handle "~",
               MainEvent.ros_error_usage argv[0]?, MainEvent.exit 2]
          ∧ MainEvent.construct ∉ main argv
          ∧ (∀ topic, MainEvent.subscribe topic ∉ main argv)
          ∧ MainEvent.spin ∉ main argv)
      ∧ (2 ≤ (argv.length : Int) →
          ∃ object_name, argv[1]? = some object_name
            ∧ main argv
              = [MainEvent.ros_init "extract_clusters", MainEvent.node_handle "~",
                 MainEvent.construct, MainEvent.subscribe "/camera/depth/points2",
                 MainEvent.set_object_name object_name, MainEvent.spin]
            ∧ ∀ status, MainEvent.exit status ∉ main argv) := by
  constructor
  · intro h
    have hm : main argv
        = [MainEvent.ros_init "extract_clusters", MainEvent.node_handle "~",
           MainEvent.ros_error_usage argv[0]?, MainEvent.exit 2] := by
      simp [main, h]
    refine ⟨hm, ?_, ?_, ?_⟩ <;> simp [hm]
  · intro h
    have hlt : 1 < argv.length := by omega
    refine ⟨argv[1], List.getElem?_eq_getElem hlt, ?_, ?_⟩
    · simp [main, not_lt.mpr h, List.getElem?_eq_getElem hlt, ExtractClusters.init]
    · simp [main, not_lt.mpr h, List.getElem?_eq_getElem hlt, ExtractClusters.init]

/-- C12 on the argument vectors `["object_grabber"]` and `["object_grabber", "mug"]`. -/
theorem C12_invocation_without_object_name_witness :
    main ["object_grabber"]
        = [MainEvent.ros_init "extract_clusters", MainEvent.node_handle "~",
           MainEvent.ros_error_usage (some "object_grabber"), MainEvent.exit 2]
    ∧ ∃ object_name, ["object_grabber", "mug"][1]? = some object_name
        ∧ main ["object_grabber", "mug"]
          = [MainEvent.ros_init "extract_clusters", MainEvent.node_handle "~",
             MainEvent.construct, MainEvent.subscribe "/camera/depth/points2",
             MainEvent.set_object_name object_name, MainEvent.spin]
        ∧ ∀ status, MainEvent.exit status ∉ main ["object_grabber", "mug"] :=
  ⟨((C12_invocation_without_object_name ["object_grabber"]).1 (by decide)).1,
    (C12_invocation_without_object_name ["object_grabber", "mug"]).2 (by decide)⟩

/-! ## Axis selection -/

section AxisSelection

variable {F : Type} [LinearOrderedField F]

lemma dominant_axis_three (n0 n1 n2 : F) :
    dominant_axis [n0, n1, n2]
      = some (if |n0| > |n1| then (if |n0| > |n2| then 0 else 2)
              else (if |n1| > |n2| then 1 else 2)) := by
  by_cases h : |n0| > |n1| <;> simp [dominant_axis, h]

lemma compute2DPolygonalArea_three (ps : PointCloud F) (n0 n1 n2 : F) (k0 : Nat)
    (hk : dominant_axis [n0, n1, n2] = some k0) :
    compute2DPolygonalArea ps [n0, n1, n2]
      = if 2 * |[n0, n1, n2].getD k0 0| = 0 then none
        else some (|shoelace_sum ps ((k0 + 1) % 3) ((k0 + 2) % 3)|
          / (2 * |[n0, n1, n2].getD k0 0|)) := by
  have hk3 : k0 < 3 := by
    rw [dominant_axis_three] at hk
    have := Option.some.inj hk
    split_ifs at this <;> omega
  interval_cases k0 <;> simp [compute2DPolygonalArea, hk]

end AxisSelection

/-- C14: for every normal `(n0, n1, n2)` the dropped axis `k0` carries a component of
largest absolute value, every component at a higher index is strictly smaller (ties go to
the higher index), the retained axes are `(k0 + 1) mod 3` and `(k0 + 2) mod 3`, and the
divisor `2 * |n[k0]|` is strictly positive when some component of the normal is
non-zero. -/
theorem C14_axis_selection {F : Type} [LinearOrderedField F] (n0 n1 n2 : F) :
    ∃ k0 : Nat, dominant_axis [n0, n1, n2] = some k0
      ∧ k0 < 3
      ∧ (∀ i : Nat, i < 3 → |[n0, n1, n2].getD i 0| ≤ |[n0, n1, n2].getD k0 0|)
      ∧ (∀ i : Nat, k0 < i → i < 3 → |[n0, n1, n2].getD i 0| < |[n0, n1, n2].getD k0 0|)
      ∧ ((n0 ≠ 0 ∨ n1 ≠ 0 ∨ n2 ≠ 0) → 0 < 2 * |[n0, n1, n2].getD k0 0|)
      ∧ ∀ ps : PointCloud F,
          compute2DPolygonalArea ps [n0, n1, n2]
            = if 2 * |[n0, n1, n2].getD k0 0| = 0 then none
              else some (|shoelace_sum ps ((k0 + 1) % 3) ((k0 + 2) % 3)|
                / (2 * |[n0, n1, n2].getD k0 0|)) := by
  have hpos : ∀ x : F, x ≠ 0 → 0 < |x| := fun x hx => abs_pos.mpr hx
  have h0 := abs_nonneg n0
  have h1 := abs_nonneg n1
  have h2 := abs_nonneg n2
  have hnz : (n0 ≠ 0 ∨ n1 ≠ 0 ∨ n2 ≠ 0) → 0 < |n0| ∨ 0 < |n1| ∨ 0 < |n2| := by
    rintro (h | h | h)
    · exact Or.inl (hpos _ h)
    · exact Or.inr (Or.inl (hpos _ h))
    · exact Or.inr (Or.inr (hpos _ h))
  by_cases h01 : |n0| > |n1|
  · by_cases h02 : |n0| > |n2|
    · have hk : dominant_axis [n0, n1, n2] = some 0 := by
        simp [dominant_axis_three, h01, h02]
      refine ⟨0, hk, by norm_num, ?_, ?_, ?_, fun ps => compute2DPolygonalArea_three ps _ _ _ _ hk⟩
      · intro i hi
        interval_cases i <;> simp <;> linarith
      · intro i hi hi3
        interval_cases i <;> simp <;> linarith
      · intro hn
        show (0 : F) < 2 * |n0|
        rcases hnz hn with h | h | h <;> linarith
    · have hk : dominant_axis [n0, n1, n2] = some 2 := by
        simp [dominant_axis_three, h01, h02]
      refine ⟨2, hk, by norm_num, ?_, ?_, ?_, fun ps => compute2DPolygonalArea_three ps _ _ _ _ hk⟩
      · intro i hi
        interval_cases i <;> simp <;> linarith
      · intro i hi hi3
        omega
      · intro hn
        show (0 : F) < 2 * |n2|
        rcases hnz hn with h | h | h <;> linarith
  · by_cases h12 : |n1| > |n2|
    · have hk : dominant_axis [n0, n1, n2] = some 1 := by
        simp [dominant_axis_three, h01, h12]
      refine ⟨1, hk, by norm_num, ?_, ?_, ?_, fun ps => compute2DPolygonalArea_three ps _ _ _ _ hk⟩
      · intro i hi
        interval_cases i <;> simp <;> linarith
      · intro i hi hi3
        interval_cases i
        simp
        linarith
      · intro hn
        show (0 : F) < 2 * |n1|
        rcases hnz hn with h | h | h <;> linarith
    · have hk : dominant_axis [n0, n1, n2] = some 2 := by
        simp [dominant_axis_three, h01, h12]
      refine ⟨2, hk, by norm_num, ?_, ?_, ?_, fun ps => compute2DPolygonalArea_three ps _ _ _ _ hk⟩
      · intro i hi
        interval_cases i <;> simp <;> linarith
      · intro i hi hi3
        omega
      · intro hn
        show (0 : F) < 2 * |n2|
        rcases hnz hn with h | h | h <;> linarith

/-! ## Cyclic sums -/

section CyclicSum

variable {F : Type} [LinearOrderedField F]

lemma shoelace_sum_eq_cyclic_sum (ps : PointCloud F) (k1 k2 : Nat) :
    shoelace_sum ps k1 k2 = cyclic_sum (cross_term k1 k2) ps :=
  shoelace_sum_eq_zipWith ps k1 k2

lemma zipWith_congr_mem (f g : Point F → Point F → F) : ∀ (l l' : List (Point F)),
    (∀ p ∈ l, ∀ q ∈ l', f p q = g p q) → List.zipWith f l l' = List.zipWith g l l'
  | [], _, _ => by simp
  | _ :: _, [], _ => by simp
  | p :: l, q :: l', h => by
    simp only [List.zipWith_cons_cons]
    rw [h p (by simp) q (by simp),
      zipWith_congr_mem f g l l' (fun p hp q hq =>
        h p (List.mem_cons_of_mem _ hp) q (List.mem_cons_of_mem _ hq))]

lemma cyclic_sum_congr (f g : Point F → Point F → F) (ps : PointCloud F)
    (h : ∀ p ∈ ps, ∀ q ∈ ps, f p q = g p q) : cyclic_sum f ps = cyclic_sum g ps := by
  unfold cyclic_sum
  rw [zipWith_congr_mem f g ps (ps.rotate 1)
    (fun p hp q hq => h p hp q (List.mem_rotate.mp hq))]

lemma sum_zipWith_linear (a b c : F) (f g h : Point F → Point F → F) :
    ∀ (l l' : List (Point F)),
    (List.zipWith (fun p q => a * f p q + b * g p q + c * h p q) l l').sum
      = a * (List.zipWith f l l').sum + b * (List.zipWith g l l').sum
        + c * (List.zipWith h l l').sum
  | [], _ => by simp
  | _ :: _, [] => by simp
  | p :: l, q :: l' => by
    simp only [List.zipWith_cons_cons, List.sum_cons, sum_zipWith_linear a b c f g h l l']
    ring

lemma sum_zipWith_diff (h : Point F → F) : ∀ (l l' : List (Point F)),
    l.length = l'.length →
    (List.zipWith (fun p q => h q - h p) l l').sum = (l'.map h).sum - (l.map h).sum
  | [], [], _ => by simp
  | [], _ :: _, hl => by simp at hl
  | _ :: _, [], hl => by simp at hl
  | p :: l, q :: l', hl => by
    have hl' : l.length = l'.length := by simpa using hl
    simp only [List.zipWith_cons_cons, List.sum_cons, List.map_cons,
      sum_zipWith_diff h l l' hl']
    ring

lemma cyclic_sum_diff (h : Point F → F) (ps : PointCloud F) :
    cyclic_sum (fun p q => h q - h p) ps = 0 := by
  unfold cyclic_sum
  rw [sum_zipWith_diff h _ _ (by simp), ((List.rotate_perm ps 1).map h).sum_eq, sub_self]

lemma cyclic_sum_linear_diff (a b c : F) (f g h : Point F → Point F → F)
    (G : Point F → F) (ps : PointCloud F) :
    cyclic_sum (fun p q => a * f p q + b * g p q + c * h p q + (G q - G p)) ps
      = a * cyclic_sum f ps + b * cyclic_sum g ps + c * cyclic_sum h ps := by
  have h₁ := sum_zipWith_linear 1 1 0 (fun p q => a * f p q + b * g p q + c * h p q)
    (fun p q => G q - G p) (fun _ _ => 0) ps (ps.rotate 1)
  have h₂ := sum_zipWith_linear a b c f g h ps (ps.rotate 1)
  have h₃ := cyclic_sum_diff G ps
  unfold cyclic_sum at h₃ ⊢
  have h₄ : (fun p q => a * f p q + b * g p q + c * h p q + (G q - G p))
      = fun p q => 1 * (a * f p q + b * g p q + c * h p q) + 1 * (G q - G p)
          + 0 * (0 : F) := by
    funext p q
    ring
  rw [h₄, h₁, h₂, h₃]
  ring

lemma cyclic_sum_map (f : Point F → Point F → F) (R : Point F → Point F)
    (ps : PointCloud F) :
    cyclic_sum f (ps.map R) = cyclic_sum (fun p q => f (R p) (R q)) ps := by
  unfold cyclic_sum
  rw [← List.map_rotate, List.zipWith_map]

end CyclicSum

/-! ## Planar polygons -/

section Planar

variable {F : Type} [LinearOrderedField F]

lemma sum_zipWith_zero : ∀ (l l' : List (Point F)),
    (List.zipWith (fun _ _ => (0 : F)) l l').sum = 0
  | [], _ => by simp
  | _ :: _, [] => by simp
  | _ :: l, _ :: l' => by simp [sum_zipWith_zero l l']

lemma cyclic_sum_zero (ps : PointCloud F) :
    cyclic_sum (fun (_ _ : Point F) => (0 : F)) ps = 0 :=
  sum_zipWith_zero ps (ps.rotate 1)

lemma polygon_cross_sum_eq (ps : PointCloud F) :
    polygon_cross_sum ps
      = (shoelace_sum ps 1 2, shoelace_sum ps 2 0, shoelace_sum ps 0 1) := by
  simp only [polygon_cross_sum, shoelace_sum_eq_cyclic_sum]
  rfl

/-- The cross-product sum of a polygon in the plane `n · p = d` is parallel to `n`. -/
lemma planar_cross_sum_parallel (ps : PointCloud F) (n0 n1 n2 d : F)
    (hplane : ∀ p ∈ ps, in_plane n0 n1 n2 d p) :
    n2 * shoelace_sum ps 2 0 = n1 * shoelace_sum ps 0 1
      ∧ n0 * shoelace_sum ps 0 1 = n2 * shoelace_sum ps 1 2
      ∧ n1 * shoelace_sum ps 1 2 = n0 * shoelace_sum ps 2 0 := by
  simp only [shoelace_sum_eq_cyclic_sum]
  refine ⟨?_, ?_, ?_⟩
  · have h := cyclic_sum_congr
      (fun p q => 0 * cross_term 1 2 p q + n2 * cross_term 2 0 p q
        + (-n1) * cross_term 0 1 p q + (-(d * q.x) - -(d * p.x)))
      (fun _ _ => 0) ps (by
        intro p hp q hq
        have hp' := hplane p hp
        have hq' := hplane q hq
        simp only [cross_term, Point.coord, in_plane] at *
        linear_combination q.x * hp' - p.x * hq')
    rw [cyclic_sum_linear_diff 0 n2 (-n1) (cross_term 1 2) (cross_term 2 0) (cross_term 0 1)
      (fun p => -(d * p.x))] at h
    rw [cyclic_sum_zero] at h
    linear_combination h
  · have h := cyclic_sum_congr
      (fun p q => (-n2) * cross_term 1 2 p q + 0 * cross_term 2 0 p q
        + n0 * cross_term 0 1 p q + (-(d * q.y) - -(d * p.y)))
      (fun _ _ => 0) ps (by
        intro p hp q hq
        have hp' := hplane p hp
        have hq' := hplane q hq
        simp only [cross_term, Point.coord, in_plane] at *
        linear_combination q.y * hp' - p.y * hq')
    rw [cyclic_sum_linear_diff (-n2) 0 n0 (cross_term 1 2) (cross_term 2 0) (cross_term 0 1)
      (fun p => -(d * p.y))] at h
    rw [cyclic_sum_zero] at h
    linear_combination h
  · have h := cyclic_sum_congr
      (fun p q => n1 * cross_term 1 2 p q + (-n0) * cross_term 2 0 p q
        + 0 * cross_term 0 1 p q + (-(d * q.z) - -(d * p.z)))
      (fun _ _ => 0) ps (by
        intro p hp q hq
        have hp' := hplane p hp
        have hq' := hplane q hq
        simp only [cross_term, Point.coord, in_plane] at *
        linear_combination q.z * hp' - p.z * hq')
    rw [cyclic_sum_linear_diff n1 (-n0) 0 (cross_term 1 2) (cross_term 2 0) (cross_term 0 1)
      (fun p => -(d * p.z))] at h
    rw [cyclic_sum_zero] at h
    linear_combination h

/-- The cross-product sum of a planar polygon is a multiple of the plane normal. -/
lemma planar_cross_sum_multiple (ps : PointCloud F) (n0 n1 n2 d : F)
    (hn : n0 ≠ 0 ∨ n1 ≠ 0 ∨ n2 ≠ 0)
    (hplane : ∀ p ∈ ps, in_plane n0 n1 n2 d p) :
    ∃ μ : F, shoelace_sum ps 1 2 = μ * n0 ∧ shoelace_sum ps 2 0 = μ * n1
      ∧ shoelace_sum ps 0 1 = μ * n2 := by
  obtain ⟨h₀, h₁, h₂⟩ := planar_cross_sum_parallel ps n0 n1 n2 d hplane
  rcases hn with h | h | h
  · refine ⟨shoelace_sum ps 1 2 / n0, ?_, ?_, ?_⟩
    · field_simp
    · field_simp
      linear_combination -h₂
    · field_simp
      linear_combination h₁
  · refine ⟨shoelace_sum ps 2 0 / n1, ?_, ?_, ?_⟩
    · field_simp
      linear_combination h₂
    · field_simp
    · field_simp
      linear_combination -h₀
  · refine ⟨shoelace_sum ps 0 1 / n2, ?_, ?_, ?_⟩
    · field_simp
      linear_combination -h₁
    · field_simp
      linear_combination h₀
    · field_simp

end Planar

/-! ## Polygon area: the true area -/

section TrueArea

variable {F : Type} [LinearOrderedField F]

lemma dominant_axis_cases (n0 n1 n2 : F) :
    (dominant_axis [n0, n1, n2] = some 0 ∧ |n1| ≤ |n0| ∧ |n2| ≤ |n0|)
      ∨ (dominant_axis [n0, n1, n2] = some 1 ∧ |n0| ≤ |n1| ∧ |n2| ≤ |n1|)
      ∨ (dominant_axis [n0, n1, n2] = some 2 ∧ |n0| ≤ |n2| ∧ |n1| ≤ |n2|) := by
  rw [dominant_axis_three]
  by_cases h01 : |n0| > |n1|
  · by_cases h02 : |n0| > |n2|
    · exact Or.inl ⟨by simp [h01, h02], le_of_lt h01, le_of_lt h02⟩
    · exact Or.inr (Or.inr ⟨by simp [h01, h02], not_lt.mp h02,
        le_trans (le_of_lt h01) (not_lt.mp h02)⟩)
  · by_cases h12 : |n1| > |n2|
    · exact Or.inr (Or.inl ⟨by simp [h01, h12], not_lt.mp h01, le_of_lt h12⟩)
    · exact Or.inr (Or.inr ⟨by simp [h01, h12],
        le_trans (not_lt.mp h01) (not_lt.mp h12), not_lt.mp h12⟩)

lemma abs_pos_of_dominant (a b c : F) (hb : |b| ≤ |a|) (hc : |c| ≤ |a|)
    (hn : a ≠ 0 ∨ b ≠ 0 ∨ c ≠ 0) : 0 < |a| := by
  rcases hn with h | h | h
  · exact abs_pos.mpr h
  · exact lt_of_lt_of_le (abs_pos.mpr h) hb
  · exact lt_of_lt_of_le (abs_pos.mpr h) hc

lemma abs_mul_div_two_abs (μ a : F) (ha : 0 < |a|) : |μ * a| / (2 * |a|) = |μ| / 2 := by
  rw [abs_mul]
  field_simp
  ring

/-- For a polygon in a plane with non-zero normal `n`, the cross-product sum is `μ n` for
some `μ`, and the computed area is `|μ| / 2`. -/
lemma area_of_planar (ps : PointCloud F) (n0 n1 n2 d : F)
    (hn : n0 ≠ 0 ∨ n1 ≠ 0 ∨ n2 ≠ 0)
    (hplane : ∀ p ∈ ps, in_plane n0 n1 n2 d p) :
    ∃ μ : F, shoelace_sum ps 1 2 = μ * n0 ∧ shoelace_sum ps 2 0 = μ * n1
      ∧ shoelace_sum ps 0 1 = μ * n2
      ∧ compute2DPolygonalArea ps [n0, n1, n2] = some (|μ| / 2) := by
  obtain ⟨μ, hx, hy, hz⟩ := planar_cross_sum_multiple ps n0 n1 n2 d hn hplane
  refine ⟨μ, hx, hy, hz, ?_⟩
  rcases dominant_axis_cases n0 n1 n2 with ⟨hk, h₁, h₂⟩ | ⟨hk, h₁, h₂⟩ | ⟨hk, h₁, h₂⟩
  · have hpos : 0 < |n0| := abs_pos_of_dominant n0 n1 n2 h₁ h₂ hn
    have hne : ¬ 2 * |n0| = 0 := by linarith
    rw [compute2DPolygonalArea_three ps n0 n1 n2 0 hk]
    show (if 2 * |n0| = 0 then none else some (|shoelace_sum ps 1 2| / (2 * |n0|))) = _
    rw [if_neg hne, hx, abs_mul_div_two_abs μ n0 hpos]
  · have hpos : 0 < |n1| := abs_pos_of_dominant n1 n0 n2 h₁ h₂ (by tauto)
    have hne : ¬ 2 * |n1| = 0 := by linarith
    rw [compute2DPolygonalArea_three ps n0 n1 n2 1 hk]
    show (if 2 * |n1| = 0 then none else some (|shoelace_sum ps 2 0| / (2 * |n1|))) = _
    rw [if_neg hne, hy, abs_mul_div_two_abs μ n1 hpos]
  · have hpos : 0 < |n2| := abs_pos_of_dominant n2 n0 n1 h₁ h₂ (by tauto)
    have hne : ¬ 2 * |n2| = 0 := by linarith
    rw [compute2DPolygonalArea_three ps n0 n1 n2 2 hk]
    show (if 2 * |n2| = 0 then none else some (|shoelace_sum ps 0 1| / (2 * |n2|))) = _
    rw [if_neg hne, hz, abs_mul_div_two_abs μ n2 hpos]

/-- Over any ordered field: for a polygon in a plane with unit normal the result `r` is
non-negative and `(2 r)²` is the squared norm of the cross-product sum. -/
lemma area_of_planar_unit (ps : PointCloud F) (n0 n1 n2 d : F)
    (hunit : n0 ^ 2 + n1 ^ 2 + n2 ^ 2 = 1)
    (hplane : ∀ p ∈ ps, in_plane n0 n1 n2 d p) :
    ∃ r : F, compute2DPolygonalArea ps [n0, n1, n2] = some r ∧ 0 ≤ r
      ∧ (2 * r) ^ 2 = (polygon_cross_sum ps).1 ^ 2 + (polygon_cross_sum ps).2.1 ^ 2
          + (polygon_cross_sum ps).2.2 ^ 2 := by
  have hn : n0 ≠ 0 ∨ n1 ≠ 0 ∨ n2 ≠ 0 := by
    by_contra hcon
    push_neg at hcon
    obtain ⟨h0, h1, h2⟩ := hcon
    rw [h0, h1, h2] at hunit
    norm_num at hunit
  obtain ⟨μ, hx, hy, hz, hr⟩ := area_of_planar ps n0 n1 n2 d hn hplane
  refine ⟨|μ| / 2, hr, by positivity, ?_⟩
  rw [polygon_cross_sum_eq, hx, hy, hz]
  have hsq : |μ| ^ 2 = μ ^ 2 := sq_abs μ
  linear_combination hsq - μ ^ 2 * hunit

end TrueArea

/-- C13: for a vertex list whose points all lie in one plane and a unit-length normal of
that plane, over the reals `compute2DPolygonalArea` returns half the Euclidean norm of the
sum of the cross products `ps[i] × ps[(i + 1) mod len]`. -/
theorem C13_area_is_half_cross_norm (ps : PointCloud ℝ) (n0 n1 n2 d : ℝ)
    (hunit : n0 ^ 2 + n1 ^ 2 + n2 ^ 2 = 1)
    (hplane : ∀ p ∈ ps, in_plane n0 n1 n2 d p) :
    compute2DPolygonalArea ps [n0, n1, n2]
      = some (Real.sqrt ((polygon_cross_sum ps).1 ^ 2 + (polygon_cross_sum ps).2.1 ^ 2
          + (polygon_cross_sum ps).2.2 ^ 2) / 2) := by
  obtain ⟨r, hr, hr0, hsq⟩ := area_of_planar_unit ps n0 n1 n2 d hunit hplane
  rw [hr, ← hsq, Real.sqrt_sq (by positivity)]
  congr 1
  ring

/-- C13 on the unit square in the plane `z = 0` with normal `(0, 0, 1)`: the area is `1`. -/
theorem C13_area_is_half_cross_norm_witness :
    ((0 : ℝ) ^ 2 + 0 ^ 2 + 1 ^ 2 = 1 ∧ ∀ p ∈ Example.unit_square ℝ, in_plane 0 0 1 0 p)
    ∧ compute2DPolygonalArea (Example.unit_square ℝ) [0, 0, 1]
        = some (Real.sqrt ((polygon_cross_sum (Example.unit_square ℝ)).1 ^ 2
            + (polygon_cross_sum (Example.unit_square ℝ)).2.1 ^ 2
            + (polygon_cross_sum (Example.unit_square ℝ)).2.2 ^ 2) / 2)
    ∧ compute2DPolygonalArea (Example.unit_square ℝ) [0, 0, 1] = some 1 := by
  have hunit : (0 : ℝ) ^ 2 + 0 ^ 2 + 1 ^ 2 = 1 := by norm_num
  have hplane : ∀ p ∈ Example.unit_square ℝ, in_plane 0 0 1 0 p := by
    simp [Example.unit_square, in_plane]
  refine ⟨⟨hunit, hplane⟩,
    C13_area_is_half_cross_norm (Example.unit_square ℝ) 0 0 1 0 hunit hplane, ?_⟩
  norm_num [Example.unit_square, compute2DPolygonalArea, dominant_axis, shoelace_sum,
    cross_term, Point.coord, List.range, List.range.loop]

/-! ## Rotation about the plane normal -/

section Rotation

variable {F : Type} [LinearOrderedField F]

lemma AxisRotation.cofactor_eq (R : AxisRotation F) (ho : R.orthogonal) (hd : R.det = 1) :
    (R.m11 * R.m22 - R.m12 * R.m21) = R.m00
      ∧ (R.m12 * R.m20 - R.m10 * R.m22) = R.m01
      ∧ (R.m10 * R.m21 - R.m11 * R.m20) = R.m02
      ∧ (R.m02 * R.m21 - R.m01 * R.m22) = R.m10
      ∧ (R.m00 * R.m22 - R.m02 * R.m20) = R.m11
      ∧ (R.m01 * R.m20 - R.m00 * R.m21) = R.m12
      ∧ (R.m01 * R.m12 - R.m02 * R.m11) = R.m20
      ∧ (R.m02 * R.m10 - R.m00 * R.m12) = R.m21
      ∧ (R.m00 * R.m11 - R.m01 * R.m10) = R.m22 := by
  obtain ⟨c00, c11, c22, c01, c02, c12⟩ := ho
  unfold AxisRotation.det at hd
  refine ⟨?_, ?_, ?_, ?_, ?_, ?_, ?_, ?_, ?_⟩
  · linear_combination (-(R.m11 * R.m22 - R.m12 * R.m21)) * c00 + (-(R.m12 * R.m20 - R.m10 * R.m22)) * c01 + (-(R.m10 * R.m21 - R.m11 * R.m20)) * c02 + R.m00 * hd
  · linear_combination (-(R.m11 * R.m22 - R.m12 * R.m21)) * c01 + (-(R.m12 * R.m20 - R.m10 * R.m22)) * c11 + (-(R.m10 * R.m21 - R.m11 * R.m20)) * c12 + R.m01 * hd
  · linear_combination (-(R.m11 * R.m22 - R.m12 * R.m21)) * c02 + (-(R.m12 * R.m20 - R.m10 * R.m22)) * c12 + (-(R.m10 * R.m21 - R.m11 * R.m20)) * c22 + R.m02 * hd
  · linear_combination (-(R.m02 * R.m21 - R.m01 * R.m22)) * c00 + (-(R.m00 * R.m22 - R.m02 * R.m20)) * c01 + (-(R.m01 * R.m20 - R.m00 * R.m21)) * c02 + R.m10 * hd
  · linear_combination (-(R.m02 * R.m21 - R.m01 * R.m22)) * c01 + (-(R.m00 * R.m22 - R.m02 * R.m20)) * c11 + (-(R.m01 * R.m20 - R.m00 * R.m21)) * c12 + R.m11 * hd
  · linear_combination (-(R.m02 * R.m21 - R.m01 * R.m22)) * c02 + (-(R.m00 * R.m22 - R.m02 * R.m20)) * c12 + (-(R.m01 * R.m20 - R.m00 * R.m21)) * c22 + R.m12 * hd
  · linear_combination (-(R.m01 * R.m12 - R.m02 * R.m11)) * c00 + (-(R.m02 * R.m10 - R.m00 * R.m12)) * c01 + (-(R.m00 * R.m11 - R.m01 * R.m10)) * c02 + R.m20 * hd
  · linear_combination (-(R.m01 * R.m12 - R.m02 * R.m11)) * c01 + (-(R.m02 * R.m10 - R.m00 * R.m12)) * c11 + (-(R.m00 * R.m11 - R.m01 * R.m10)) * c12 + R.m21 * hd
  · linear_combination (-(R.m01 * R.m12 - R.m02 * R.m11)) * c02 + (-(R.m02 * R.m10 - R.m00 * R.m12)) * c12 + (-(R.m00 * R.m11 - R.m01 * R.m10)) * c22 + R.m22 * hd

lemma AxisRotation.cross_term_apply_0 (R : AxisRotation F) (ho : R.orthogonal)
    (hd : R.det = 1) (p q : Point F) :
    cross_term 1 2 (R.apply p) (R.apply q)
      = R.m00 * cross_term 1 2 p q + R.m01 * cross_term 2 0 p q
        + R.m02 * cross_term 0 1 p q + (R.shift_term_0 q - R.shift_term_0 p) := by
  obtain ⟨h00, h01, h02, h10, h11, h12, h20, h21, h22⟩ := R.cofactor_eq ho hd
  simp only [cross_term, Point.coord, AxisRotation.apply, AxisRotation.shift_term_0]
  linear_combination (p.y * q.z - p.z * q.y) * h00 + (p.z * q.x - p.x * q.z) * h01
    + (p.x * q.y - p.y * q.x) * h02

lemma AxisRotation.cross_term_apply_1 (R : AxisRotation F) (ho : R.orthogonal)
    (hd : R.det = 1) (p q : Point F) :
    cross_term 2 0 (R.apply p) (R.apply q)
      = R.m10 * cross_term 1 2 p q + R.m11 * cross_term 2 0 p q
        + R.m12 * cross_term 0 1 p q + (R.shift_term_1 q - R.shift_term_1 p) := by
  obtain ⟨h00, h01, h02, h10, h11, h12, h20, h21, h22⟩ := R.cofactor_eq ho hd
  simp only [cross_term, Point.coord, AxisRotation.apply, AxisRotation.shift_term_1]
  linear_combination (p.y * q.z - p.z * q.y) * h10 + (p.z * q.x - p.x * q.z) * h11
    + (p.x * q.y - p.y * q.x) * h12

lemma AxisRotation.cross_term_apply_2 (R : AxisRotation F) (ho : R.orthogonal)
    (hd : R.det = 1) (p q : Point F) :
    cross_term 0 1 (R.apply p) (R.apply q)
      = R.m20 * cross_term 1 2 p q + R.m21 * cross_term 2 0 p q
        + R.m22 * cross_term 0 1 p q + (R.shift_term_2 q - R.shift_term_2 p) := by
  obtain ⟨h00, h01, h02, h10, h11, h12, h20, h21, h22⟩ := R.cofactor_eq ho hd
  simp only [cross_term, Point.coord, AxisRotation.apply, AxisRotation.shift_term_2]
  linear_combination (p.y * q.z - p.z * q.y) * h20 + (p.z * q.x - p.x * q.z) * h21
    + (p.x * q.y - p.y * q.x) * h22

lemma AxisRotation.cyclic_sum_apply_0 (R : AxisRotation F) (ho : R.orthogonal)
    (hd : R.det = 1) (ps : PointCloud F) :
    shoelace_sum (ps.map R.apply) 1 2
      = R.m00 * shoelace_sum ps 1 2 + R.m01 * shoelace_sum ps 2 0
        + R.m02 * shoelace_sum ps 0 1 := by
  simp only [shoelace_sum_eq_cyclic_sum]
  rw [cyclic_sum_map,
    cyclic_sum_congr _
      (fun p q => R.m00 * cross_term 1 2 p q + R.m01 * cross_term 2 0 p q
        + R.m02 * cross_term 0 1 p q + (R.shift_term_0 q - R.shift_term_0 p)) ps
      (fun p _ q _ => R.cross_term_apply_0 ho hd p q)]
  exact cyclic_sum_linear_diff _ _ _ _ _ _ _ ps

lemma AxisRotation.cyclic_sum_apply_1 (R : AxisRotation F) (ho : R.orthogonal)
    (hd : R.det = 1) (ps : PointCloud F) :
    shoelace_sum (ps.map R.apply) 2 0
      = R.m10 * shoelace_sum ps 1 2 + R.m11 * shoelace_sum ps 2 0
        + R.m12 * shoelace_sum ps 0 1 := by
  simp only [shoelace_sum_eq_cyclic_sum]
  rw [cyclic_sum_map,
    cyclic_sum_congr _
      (fun p q => R.m10 * cross_term 1 2 p q + R.m11 * cross_term 2 0 p q
        + R.m12 * cross_term 0 1 p q + (R.shift_term_1 q - R.shift_term_1 p)) ps
      (fun p _ q _ => R.cross_term_apply_1 ho hd p q)]
  exact cyclic_sum_linear_diff _ _ _ _ _ _ _ ps

lemma AxisRotation.cyclic_sum_apply_2 (R : AxisRotation F) (ho : R.orthogonal)
    (hd : R.det = 1) (ps : PointCloud F) :
    shoelace_sum (ps.map R.apply) 0 1
      = R.m20 * shoelace_sum ps 1 2 + R.m21 * shoelace_sum ps 2 0
        + R.m22 * shoelace_sum ps 0 1 := by
  simp only [shoelace_sum_eq_cyclic_sum]
  rw [cyclic_sum_map,
    cyclic_sum_congr _
      (fun p q => R.m20 * cross_term 1 2 p q + R.m21 * cross_term 2 0 p q
        + R.m22 * cross_term 0 1 p q + (R.shift_term_2 q - R.shift_term_2 p)) ps
      (fun p _ q _ => R.cross_term_apply_2 ho hd p q)]
  exact cyclic_sum_linear_diff _ _ _ _ _ _ _ ps

/-- A rotation about the normal of the plane of a polygon leaves the cross-product sum of
the polygon unchanged. -/
lemma shoelace_sum_rotation (ps : PointCloud F) (n0 n1 n2 d : F) (R : AxisRotation F)
    (hn : n0 ≠ 0 ∨ n1 ≠ 0 ∨ n2 ≠ 0)
    (hplane : ∀ p ∈ ps, in_plane n0 n1 n2 d p)
    (hR : R.is_rotation_about n0 n1 n2) :
    shoelace_sum (ps.map R.apply) 1 2 = shoelace_sum ps 1 2
      ∧ shoelace_sum (ps.map R.apply) 2 0 = shoelace_sum ps 2 0
      ∧ shoelace_sum (ps.map R.apply) 0 1 = shoelace_sum ps 0 1 := by
  obtain ⟨ho, hd, f₀, f₁, f₂⟩ := hR
  obtain ⟨μ, hx, hy, hz⟩ := planar_cross_sum_multiple ps n0 n1 n2 d hn hplane
  refine ⟨?_, ?_, ?_⟩
  · rw [R.cyclic_sum_apply_0 ho hd, hx, hy, hz]
    linear_combination μ * f₀
  · rw [R.cyclic_sum_apply_1 ho hd, hx, hy, hz]
    linear_combination μ * f₁
  · rw [R.cyclic_sum_apply_2 ho hd, hx, hy, hz]
    linear_combination μ * f₂

/-- The rotation about a vertical axis by an angle with cosine `c` and sine `s` is a
rotation about every vertical direction. -/
lemma AxisRotation.about_z_is_rotation (c s a0 a1 a2 n2 : F) (h : c ^ 2 + s ^ 2 = 1) :
    (AxisRotation.about_z c s a0 a1 a2).is_rotation_about 0 0 n2 := by
  refine ⟨⟨?_, ?_, ?_, ?_, ?_, ?_⟩, ?_, ?_, ?_, ?_⟩ <;>
    simp only [AxisRotation.about_z, AxisRotation.det] <;>
    first | linear_combination h | linear_combination (0 : F) * h

/-- The axis-angle rotation with `c² + s² = 1` about a unit direction `u` is a rotation
about every direction `l u` parallel to `u`. -/
lemma AxisRotation.about_axis_is_rotation (c s u0 u1 u2 a0 a1 a2 l : F)
    (hcs : c ^ 2 + s ^ 2 = 1) (hu : u0 ^ 2 + u1 ^ 2 + u2 ^ 2 = 1) :
    (AxisRotation.about_axis c s u0 u1 u2 a0 a1 a2).is_rotation_about
      (l * u0) (l * u1) (l * u2) := by
  refine ⟨⟨?_, ?_, ?_, ?_, ?_, ?_⟩, ?_, ?_, ?_, ?_⟩ <;>
    simp only [AxisRotation.about_axis, AxisRotation.det]
  · linear_combination ((1) + (-2) * u0 ^ 2 + u0 ^ 2 * u2 ^ 2 + u0 ^ 2 * u1 ^ 2 + u0 ^ 4) * hcs
      + ((2) * u0 ^ 2 + s ^ 2 - s ^ 2 * u0 ^ 2 + (-2) * c * u0 ^ 2) * hu
  · linear_combination ((1) + (-2) * u1 ^ 2 + u1 ^ 2 * u2 ^ 2 + u1 ^ 4 + u0 ^ 2 * u1 ^ 2) * hcs
      + ((2) * u1 ^ 2 + s ^ 2 - s ^ 2 * u1 ^ 2 + (-2) * c * u1 ^ 2) * hu
  · linear_combination ((1) + (-2) * u2 ^ 2 + u2 ^ 4 + u1 ^ 2 * u2 ^ 2 + u0 ^ 2 * u2 ^ 2) * hcs
      + ((2) * u2 ^ 2 + s ^ 2 - s ^ 2 * u2 ^ 2 + (-2) * c * u2 ^ 2) * hu
  · linear_combination ((-2) * u0 * u1 + u0 * u1 * u2 ^ 2 + u0 * u1 ^ 3 + u0 ^ 3 * u1) * hcs
      + ((2) * u0 * u1 - s ^ 2 * u0 * u1 + (-2) * c * u0 * u1) * hu
  · linear_combination ((-2) * u0 * u2 + u0 * u2 ^ 3 + u0 * u1 ^ 2 * u2 + u0 ^ 3 * u2) * hcs
      + ((2) * u0 * u2 - s ^ 2 * u0 * u2 + (-2) * c * u0 * u2) * hu
  · linear_combination ((-2) * u1 * u2 + u1 * u2 ^ 3 + u1 ^ 3 * u2 + u0 ^ 2 * u1 * u2) * hcs
      + ((2) * u1 * u2 - s ^ 2 * u1 * u2 + (-2) * c * u1 * u2) * hu
  · linear_combination (u2 ^ 2 + u1 ^ 2 + u0 ^ 2 + c - c * u2 ^ 2 - c * u1 ^ 2 - c * u0 ^ 2) * hcs
      + ((1) + s ^ 2 * u2 ^ 2 + s ^ 2 * u1 ^ 2 + s ^ 2 * u0 ^ 2 - c + c * s ^ 2 - c * s ^ 2 * u2 ^ 2 - c * s ^ 2 * u1 ^ 2 - c * s ^ 2 * u0 ^ 2) * hu
  · linear_combination (0) * hcs
      + (u0 * l - c * u0 * l) * hu
  · linear_combination (0) * hcs
      + (u1 * l - c * u1 * l) * hu
  · linear_combination (0) * hcs
      + (u2 * l - c * u2 * l) * hu

/-- Over the reals: the rotation by any angle `θ` about the axis through `a` with unit
direction `u` is a rotation about every direction parallel to `u`. -/
lemma AxisRotation.about_axis_angle_is_rotation (θ u0 u1 u2 a0 a1 a2 l : ℝ)
    (hu : u0 ^ 2 + u1 ^ 2 + u2 ^ 2 = 1) :
    (AxisRotation.about_axis (Real.cos θ) (Real.sin θ) u0 u1 u2 a0 a1 a2).is_rotation_about
      (l * u0) (l * u1) (l * u2) :=
  AxisRotation.about_axis_is_rotation _ _ _ _ _ _ _ _ l (Real.cos_sq_add_sin_sq θ) hu

end Rotation

/-- C11: for a vertex list whose points all lie in one plane with non-zero normal `n`, and
every rotation `R` about an axis parallel to `n` (through any point, by any angle),
`compute2DPolygonalArea (map R ps, n) = compute2DPolygonalArea (ps, n)` over exact
arithmetic. -/
theorem C11_area_rotation_invariant {F : Type} [LinearOrderedField F] (ps : PointCloud F)
    (n0 n1 n2 d : F) (R : AxisRotation F)
    (hn : n0 ≠ 0 ∨ n1 ≠ 0 ∨ n2 ≠ 0)
    (hplane : ∀ p ∈ ps, in_plane n0 n1 n2 d p)
    (hR : R.is_rotation_about n0 n1 n2) :
    compute2DPolygonalArea (ps.map R.apply) [n0, n1, n2]
      = compute2DPolygonalArea ps [n0, n1, n2] := by
  obtain ⟨hx, hy, hz⟩ := shoelace_sum_rotation ps n0 n1 n2 d R hn hplane hR
  rcases dominant_axis_cases n0 n1 n2 with ⟨hk, _, _⟩ | ⟨hk, _, _⟩ | ⟨hk, _, _⟩
  · rw [compute2DPolygonalArea_three _ n0 n1 n2 0 hk,
      compute2DPolygonalArea_three _ n0 n1 n2 0 hk]
    show (if _ then none else some (|shoelace_sum (ps.map R.apply) 1 2| / _)) = _
    rw [hx]
  · rw [compute2DPolygonalArea_three _ n0 n1 n2 1 hk,
      compute2DPolygonalArea_three _ n0 n1 n2 1 hk]
    show (if _ then none else some (|shoelace_sum (ps.map R.apply) 2 0| / _)) = _
    rw [hy]
  · rw [compute2DPolygonalArea_three _ n0 n1 n2 2 hk,
      compute2DPolygonalArea_three _ n0 n1 n2 2 hk]
    show (if _ then none else some (|shoelace_sum (ps.map R.apply) 0 1| / _)) = _
    rw [hz]

/-- C11 on a triangle in the plane `x + 2 y + 2 z = 0` with unit normal `(1/3, 2/3, 2/3)`,
turned about the axis through `(1, 2, 3)` parallel to the normal by the angle with cosine
`3/5` and sine `4/5`: the area is `3/2` before and after. -/
theorem C11_area_rotation_invariant_witness :
    (((1 / 3 : ℚ) ≠ 0 ∨ (2 / 3 : ℚ) ≠ 0 ∨ (2 / 3 : ℚ) ≠ 0)
      ∧ (∀ p ∈ Example.triangle, in_plane (1 / 3) (2 / 3) (2 / 3) 0 p)
      ∧ Example.turn.is_rotation_about (1 / 3) (2 / 3) (2 / 3))
    ∧ compute2DPolygonalArea (Example.triangle.map Example.turn.apply)
        [1 / 3, 2 / 3, 2 / 3]
      = compute2DPolygonalArea Example.triangle [1 / 3, 2 / 3, 2 / 3]
    ∧ compute2DPolygonalArea Example.triangle [1 / 3, 2 / 3, 2 / 3] = some (3 / 2) := by
  have hn : (1 / 3 : ℚ) ≠ 0 ∨ (2 / 3 : ℚ) ≠ 0 ∨ (2 / 3 : ℚ) ≠ 0 := Or.inl (by norm_num)
  have hplane : ∀ p ∈ Example.triangle, in_plane (1 / 3) (2 / 3) (2 / 3) 0 p := by
    intro p hp
    simp only [Example.triangle, List.mem_cons, List.mem_singleton, List.not_mem_nil,
      or_false] at hp
    rcases hp with rfl | rfl | rfl <;> norm_num [in_plane]
  have hR : Example.turn.is_rotation_about (1 / 3) (2 / 3) (2 / 3) := by
    have h := AxisRotation.about_axis_is_rotation (3 / 5 : ℚ) (4 / 5) (1 / 3) (2 / 3)
      (2 / 3) 1 2 3 1 (by norm_num) (by norm_num)
    simpa only [one_mul] using h
  refine ⟨⟨hn, hplane, hR⟩,
    C11_area_rotation_invariant Example.triangle (1 / 3) (2 / 3) (2 / 3) 0 Example.turn
      hn hplane hR, ?_⟩
  norm_num [Example.triangle, compute2DPolygonalArea, dominant_axis, shoelace_sum,
    cross_term, Point.coord, List.range, List.range.loop]
  norm_num [abs_of_pos]

end ObjectGrabber

namespace GlobalRSD

/-! ## Distance bins -/

section BinLemmas

variable {K : Type} [LinearOrderedField K] [FloorRing K]

lemma bin_d_eq_iff (d md : K) (hmd : 0 < md) (z : Int) :
    bin_d d md = z ↔ (z : K) * md ≤ 5 * d ∧ 5 * d < ((z : K) + 1) * md := by
  unfold bin_d div_d
  rw [Int.floor_eq_iff, le_div_iff₀ hmd, div_lt_iff₀ hmd]
  norm_num

/-- A pair of points at distance exactly `max_dist` falls into bin `div_d = 5`. -/
lemma bin_d_max_dist (md : K) (hmd : 0 < md) : bin_d md md = 5 := by
  rw [bin_d_eq_iff md md hmd]
  constructor
  · norm_num
  · push_cast
    linarith

/-- A pair of points at a distance below `max_dist` falls into one of the bins `0..4`. -/
lemma bin_d_in_range (d md : K) (hd : 0 ≤ d) (hlt : d < md) :
    0 ≤ bin_d d md ∧ bin_d d md < 5 := by
  have hmd : 0 < md := lt_of_le_of_lt hd hlt
  unfold bin_d div_d
  constructor
  · apply Int.floor_nonneg.mpr
    positivity
  · rw [Int.floor_lt, div_lt_iff₀ hmd]
    push_cast
    linarith

omit [FloorRing K] in
lemma update_min_max_five (table : List (K × K)) (h : table.length = 5) (angle : K) :
    update_min_max table 5 angle = none := by
  have hnone : table[5]? = none := by
    rw [List.getElem?_eq_none_iff, h]
  simp [update_min_max, hnone]

end BinLemmas

/-- C15 (the code at the failing input): for two neighbours at distance `1` with
`max_dist = 1` the bin index is `5`, which is not an index of the five-entry table
`min_max_angle_by_dist`: the update of lines 170-171, and with it `setSurfaceType`, reads
and writes outside the table. -/
theorem C15_bin_index_at_max_dist :
    (0 : ℚ) ≤ Example.dist2 0 1 ∧ Example.dist2 0 1 ≤ 1
    ∧ bin_d (Example.dist2 0 1) 1 = 5
    ∧ (init_min_max_angle_by_dist Example.DBL_MAX).length = 5
    ∧ update_min_max (init_min_max_angle_by_dist Example.DBL_MAX)
        (bin_d (Example.dist2 0 1) 1) (Example.angle2 0 1) = none
    ∧ setSurfaceType Example.DBL_MAX Example.angle2 Example.dist2 [0, 1] 1 = none := by
  have hd : Example.dist2 0 1 = 1 := by decide
  have hb1 : bin_d (1 : ℚ) 1 = 5 := bin_d_max_dist 1 one_pos
  have hb0 : bin_d (0 : ℚ) 1 = 0 := by
    rw [bin_d_eq_iff _ _ one_pos]
    norm_num
  have hlen : (init_min_max_angle_by_dist Example.DBL_MAX).length = 5 := by
    simp [init_min_max_angle_by_dist, div_d]
  refine ⟨by rw [hd]; norm_num, by rw [hd], by rw [hd, hb1], hlen, ?_, ?_⟩
  · rw [hd, hb1]
    exact update_min_max_five _ hlen _
  · simp [setSurfaceType, min_max_angle_by_dist, List.range, List.range.loop, List.range',
      Example.dist2, Example.angle2, hb0, hb1, update_min_max, init_min_max_angle_by_dist,
      div_d, List.replicate]

/-! ## Radius estimates -/

section RadiusLemmas

variable {K : Type} [LinearOrderedField K]

end RadiusLemmas

end GlobalRSD
